import Mathlib

/-!
# ONNX Runtime inference examples: CUDA and DirectML

A shallow embedding of the two example programs

* `CppExamples/Inference/Cuda/CudaInference/Program.cpp`
* `CppExamples/Inference/DirectML/DirectMLInference/Program.cpp`

Each program is one `main` function that drives the ONNX Runtime C/C++ API.
The runtime itself is not part of the repository, so it appears here as a
parameter (`Runtime`, `Session`): a record giving, for every call the
programs make, the value it returns or the `Ort::Exception` it throws.
Every theorem quantifies over all such records.

A program run is a log of events (runtime calls with their arguments, lines
written to `std::cout`, lines written to `std::cerr`/`std::wcerr`) together
with the value returned from `main`.
-/

namespace OrtExamples

/-! ## Data model -/

/-- Element types of tensors (`ONNX_TENSOR_ELEMENT_DATA_TYPE_*`). -/
inductive ElemType
  | int64
  | float16
  | float32
  deriving DecidableEq, Repr

/-- A tensor created over a caller-owned buffer: element type, shape, the
elements of the backing buffer and the byte length handed to the runtime. -/
structure Tensor where
  elemType : ElemType
  shape : List Int
  data : List Int
  byteLen : Nat
  deriving DecidableEq, Repr

/-- Number of elements a shape describes: the product of its dimensions. -/
def Tensor.elementCount (t : Tensor) : Int := t.shape.prod

/-- Size in bytes of an `int64_t`: `sizeof(int64_t)`. -/
def sizeofInt64 : Nat := 8

/-- Size in bytes of a `uint16_t`: `sizeof(uint16_t)`. -/
def sizeofUInt16 : Nat := 2

/-- The call `Ort::Value::CreateTensor<int64_t>(info, p_data, p_data_element_count, shape, shape_len)`:
a view over `p_data_element_count` elements of `p_data`, with the first
`shape_len` entries of `shape`. -/
def CreateTensorInt64 (p_data : List Int) (p_data_element_count : Nat)
    (shape : List Int) (shape_len : Nat) : Tensor :=
  { elemType := ElemType.int64
    shape := shape.take shape_len
    data := p_data.take p_data_element_count
    byteLen := p_data_element_count * sizeofInt64 }

/-- The call `Ort::Value::CreateTensor(info, p_data, p_data_byte_count, shape, shape_len, type)`
over a buffer of `uint16_t`: a view over `p_data_byte_count` bytes. -/
def CreateTensorRaw (p_data : List Int) (p_data_byte_count : Nat)
    (shape : List Int) (shape_len : Nat) (type : ElemType) : Tensor :=
  { elemType := type
    shape := shape.take shape_len
    data := p_data.take (p_data_byte_count / sizeofUInt16)
    byteLen := p_data_byte_count }

/-- An `Ort::Value` returned by `Run`: a dense tensor with its buffer of
`float` elements (kept abstract as numbers), or something that is not a
tensor. -/
inductive OrtValue
  | tensor (buffer : List Nat)
  | nonTensor
  deriving DecidableEq, Repr

/-- The observer `Ort::Value::IsTensor()`. -/
def OrtValue.IsTensor : OrtValue → Bool
  | OrtValue.tensor _ => true
  | OrtValue.nonTensor => false

/-- The observer `Ort::Value::GetTensorMutableData<float>()`: the buffer of the tensor. -/
def OrtValue.GetTensorMutableData : OrtValue → List Nat
  | OrtValue.tensor buffer => buffer
  | OrtValue.nonTensor => []

/-- An `OrtStatus` object (a non-null `OrtStatus*`), carrying its message. -/
structure OrtStatus where
  msg : String
  deriving DecidableEq, Repr

/-- The two execution modes, `ORT_SEQUENTIAL` and `ORT_PARALLEL`. -/
inductive ExecutionMode
  | ORT_SEQUENTIAL
  | ORT_PARALLEL
  deriving DecidableEq, Repr

/-- An execution provider registered on session options, with its device index. -/
inductive Provider
  | CUDA (device : Nat)
  | DML (device : Nat)
  deriving DecidableEq, Repr

/-- The state of an `Ort::SessionOptions` object. -/
structure SessionOptions where
  executionMode : ExecutionMode
  memPattern : Bool
  providers : List Provider
  deriving DecidableEq, Repr

/-- What `SetExecutionMode(mode)` does to the options. -/
def SessionOptions.SetExecutionMode (o : SessionOptions) (mode : ExecutionMode) :
    SessionOptions :=
  { o with executionMode := mode }

/-- What `DisableMemPattern()` does to the options. -/
def SessionOptions.DisableMemPattern (o : SessionOptions) : SessionOptions :=
  { o with memPattern := false }

/-- What a successful provider append does to the options. -/
def SessionOptions.append (o : SessionOptions) (p : Provider) : SessionOptions :=
  { o with providers := o.providers ++ [p] }

/-- The logging levels `ORT_LOGGING_LEVEL_*`. -/
inductive OrtLoggingLevel
  | VERBOSE
  | INFO
  | WARNING
  | ERROR
  | FATAL
  deriving DecidableEq, Repr

/-! ## Events -/

/-- One observable step of a program: a runtime call with its arguments (and,
for the status-returning C calls, the status it returned), a read of the
output buffer, or a line of text written to a standard stream. -/
inductive Event
  | Env (logging_level : OrtLoggingLevel) (logid : String)
  | NewSessionOptions
  | AppendExecutionProvider_CUDA (options : SessionOptions) (device : Nat)
      (status : Option OrtStatus)
  | GetExecutionProviderApi (name : String) (version : Nat)
      (status : Option OrtStatus) (apiNonNull : Bool)
  | GetErrorMessage (status : Option OrtStatus)
  | SetExecutionMode (mode : ExecutionMode)
  | DisableMemPattern
  | AppendExecutionProvider_DML (options : SessionOptions) (device : Nat)
      (status : Option OrtStatus)
  | Session (modelPath : String) (options : SessionOptions)
  | AllocatorWithDefaultOptions
  | GetInputCount
  | GetInputNameAllocated (index : Nat)
  | CreateCpu
  | CreateTensor (tensor : Tensor)
  | GetOutputCount
  | GetOutputNameAllocated (index : Nat)
  | Run (input_names : List String) (input_values : List Tensor) (input_count : Nat)
      (output_names : List String) (output_count : Nat)
  | IsTensor (index : Nat)
  | GetTensorMutableData (index : Nat)
  | readElement (index : Nat)
  | cout (line : String)
  | cerr (line : String)
  deriving DecidableEq, Repr

/-! ## The runtime as a parameter -/

/-- Behaviour of a constructed `Ort::Session`: for each call, the value it
returns (`Except.ok`) or the message of the `Ort::Exception` it throws
(`Except.error`). -/
structure Session where
  GetInputCount : Except String Nat
  GetInputNameAllocated : Nat → Except String String
  GetOutputCount : Except String Nat
  GetOutputNameAllocated : Nat → Except String String
  Run : List String → List Tensor → Nat → List String → Nat → Except String (List OrtValue)

/-- Behaviour of everything outside the two source files. Calls made once
have one outcome; `CreateTensor` is given the position of the tensor in the
input list and its descriptor. A null `OrtStatus*` is `none`. -/
structure Runtime where
  ORT_API_VERSION : Nat
  GetErrorMessage : Option OrtStatus → String
  Env : Except String Unit
  NewSessionOptions : Except String SessionOptions
  SetExecutionMode : Except String Unit
  DisableMemPattern : Except String Unit
  AppendExecutionProvider_CUDA : Option OrtStatus
  GetExecutionProviderApi : Option OrtStatus × Bool
  AppendExecutionProvider_DML : Option OrtStatus
  Session : Except String Session
  AllocatorWithDefaultOptions : Except String Unit
  CreateCpu : Except String Unit
  CreateTensor : Nat → Tensor → Except String Unit
  showFloat : Nat → String
  strayFloat : Nat → Nat

/-! ## Executions -/

/-- How a block of statements ends: it runs to its end with a value, it
executes `return code;`, or an `Ort::Exception` with message `what` escapes. -/
inductive Result (α : Type)
  | ok (v : α)
  | ret (code : Int)
  | throw (what : String)

/-- A block of statements: the events it produces and how it ends. -/
structure Exec (α : Type) where
  log : List Event
  res : Result α

namespace Exec

/-- The empty block. -/
def pure {α : Type} (v : α) : Exec α := ⟨[], Result.ok v⟩

/-- Sequencing: the second block runs only if the first runs to its end. -/
def bind {α β : Type} (x : Exec α) (f : α → Exec β) : Exec β :=
  match x.res with
  | Result.ok v => ⟨x.log ++ (f v).log, (f v).res⟩
  | Result.ret code => ⟨x.log, Result.ret code⟩
  | Result.throw what => ⟨x.log, Result.throw what⟩

/-- A step that cannot fail. -/
def emit (e : Event) : Exec Unit := ⟨[e], Result.ok ()⟩

/-- A call into the C++ API: it returns a value or throws. -/
def call {α : Type} (e : Event) (outcome : Except String α) : Exec α :=
  match outcome with
  | Except.ok v => ⟨[e], Result.ok v⟩
  | Except.error what => ⟨[e], Result.throw what⟩

/-- The statement `return code;`. -/
def returnWith {α : Type} (code : Int) : Exec α := ⟨[], Result.ret code⟩

/-- The loop `for (size_t i = start; i < start + count; i++) body(i)`,
collecting what the body yields. -/
def forCount {α : Type} (body : Nat → Exec α) : Nat → Nat → Exec (List α)
  | _, 0 => pure []
  | start, count + 1 =>
    bind (body start) fun v =>
    bind (forCount body (start + 1) count) fun vs =>
    pure (v :: vs)

/-- The loop `for (const auto& x : xs) std::cout << "  " << x << std::endl;`. -/
def printEach (xs : List String) : Exec Unit :=
  ⟨xs.map fun x => Event.cout ("  " ++ x), Result.ok ()⟩

end Exec

/-- The program's run: its events and the value `main` returns. -/
structure Outcome where
  log : List Event
  exitCode : Int

/-- The expression `logits_data[i]`: the element when `i` is inside the buffer, otherwise
whatever the memory past the buffer holds. -/
def elementAt (rt : Runtime) (logits_data : List Nat) (i : Nat) : Nat :=
  match logits_data[i]? with
  | some v => v
  | none => rt.strayFloat i

/-- One `Ort::Value::CreateTensor` call: on success the value is the view
described by the arguments. -/
def createTensor (rt : Runtime) (position : Nat) (t : Tensor) : Exec Tensor :=
  match rt.CreateTensor position t with
  | Except.ok _ => ⟨[Event.CreateTensor t], Result.ok t⟩
  | Except.error what => ⟨[Event.CreateTensor t], Result.throw what⟩

/-! ## `CppExamples/Inference/Cuda/CudaInference/Program.cpp` -/

namespace CudaInference

/-- The model path constant of the program (line 11). -/
def modelFilePath : String := "<YOUR MODEL>"

def input_ids_shape : List Int := [1, 3]

def input_ids_data : List Int := [1, 2, 3]

def position_ids_shape : List Int := [1, 3]

def position_ids_data : List Int := [0, 1, 2]

def attention_mask_shape : List Int := [1, 3]

def attention_mask_data : List Int := [1, 1, 1]

/-- Shape of a past key/value tensor: sequence length 0 (line 51). -/
def past_shape : List Int := [1, 32, 0, 96]

/-- The empty `std::vector<uint16_t>` behind every past tensor (line 52). -/
def past_data : List Int := []

/-- Lines 14-26: environment, session options, the CUDA provider append with
its status check, and session construction. -/
def setup (rt : Runtime) : Exec Session :=
  Exec.bind (Exec.call (Event.Env OrtLoggingLevel.VERBOSE "CUDA_Debug") rt.Env) fun _ =>
  Exec.bind (Exec.call Event.NewSessionOptions rt.NewSessionOptions) fun sessionOptions =>
  let status := rt.AppendExecutionProvider_CUDA
  Exec.bind (Exec.emit (Event.AppendExecutionProvider_CUDA sessionOptions 0 status)) fun _ =>
  if status.isSome then
    Exec.bind (Exec.emit (Event.GetErrorMessage status)) fun _ =>
    let errorMessage := rt.GetErrorMessage status
    Exec.bind (Exec.emit (Event.cerr
      ("Failed to append CUDA execution provider: " ++ errorMessage))) fun _ =>
    Exec.returnWith (-1)
  else
    Exec.bind (Exec.emit (Event.cout "CUDA execution provider appended successfully.")) fun _ =>
    Exec.call (Event.Session modelFilePath (sessionOptions.append (Provider.CUDA 0))) rt.Session

/-- Input assembly (lines 41-79): `memory_info`, the three fixed tensors pushed
onto `input_tensors`, then the loop `for (size_t i = 3; i < num_inputs; i++)`,
which pushes one past tensor per iteration: `num_inputs - 3` iterations, none
when `num_inputs <= 3`. -/
def assembleInputs (rt : Runtime) (num_inputs : Nat) : Exec (List Tensor) :=
  Exec.bind (Exec.call Event.CreateCpu rt.CreateCpu) fun _ =>
  Exec.bind (createTensor rt 0 (CreateTensorInt64 input_ids_data input_ids_data.length
    input_ids_shape input_ids_shape.length)) fun input_ids_tensor =>
  Exec.bind (createTensor rt 1 (CreateTensorInt64 position_ids_data position_ids_data.length
    position_ids_shape position_ids_shape.length)) fun position_ids_tensor =>
  Exec.bind (createTensor rt 2 (CreateTensorInt64 attention_mask_data attention_mask_data.length
    attention_mask_shape attention_mask_shape.length)) fun attention_mask_tensor =>
  Exec.bind (Exec.forCount (fun i => createTensor rt i (CreateTensorRaw past_data
    (past_data.length * sizeofUInt16) past_shape past_shape.length ElemType.float16))
    3 (num_inputs - 3)) fun past_tensors =>
  Exec.pure ([input_ids_tensor, position_ids_tensor, attention_mask_tensor] ++ past_tensors)

/-- Output reporting (lines 102-111): the `if`/`else` after the run call. The
condition `!output_tensors.empty() && output_tensors[0].IsTensor()` calls
`IsTensor` only on a non-empty list. -/
def report (rt : Runtime) : List OrtValue → Exec Unit
  | [] => Exec.emit (Event.cout "No logits output tensor found.")
  | first :: _ =>
    Exec.bind (Exec.emit (Event.IsTensor 0)) fun _ =>
    if first.IsTensor then
      Exec.bind (Exec.emit (Event.GetTensorMutableData 0)) fun _ =>
      Exec.bind (Exec.emit (Event.cout "Logits output, first few values:")) fun _ =>
      Exec.bind (Exec.forCount (fun i =>
        Exec.bind (Exec.emit (Event.readElement i)) fun _ =>
        Exec.emit (Event.cout ("  " ++ rt.showFloat (elementAt rt first.GetTensorMutableData i))))
        0 10) fun _ =>
      Exec.pure ()
    else
      Exec.emit (Event.cout "No logits output tensor found.")

/-- From the allocator to the end of the `try` block (lines 27-111): name
enumeration, input assembly, the run call and output reporting. -/
def inference (rt : Runtime) (session : Session) : Exec Unit :=
  Exec.bind (Exec.call Event.AllocatorWithDefaultOptions rt.AllocatorWithDefaultOptions) fun _ =>
  Exec.bind (Exec.call Event.GetInputCount session.GetInputCount) fun num_inputs =>
  Exec.bind (Exec.forCount (fun i =>
    Exec.call (Event.GetInputNameAllocated i) (session.GetInputNameAllocated i))
    0 num_inputs) fun input_names =>
  Exec.bind (Exec.emit (Event.cout "Input Names:")) fun _ =>
  Exec.bind (Exec.printEach input_names) fun _ =>
  Exec.bind (assembleInputs rt num_inputs) fun input_tensors =>
  Exec.bind (Exec.call Event.GetOutputCount session.GetOutputCount) fun num_outputs =>
  Exec.bind (Exec.forCount (fun i =>
    Exec.call (Event.GetOutputNameAllocated i) (session.GetOutputNameAllocated i))
    0 num_outputs) fun output_names =>
  Exec.bind (Exec.call
    (Event.Run input_names input_tensors input_tensors.length output_names output_names.length)
    (session.Run input_names input_tensors input_tensors.length output_names
      output_names.length)) fun output_tensors =>
  report rt output_tensors

/-- The body of the `try` block (lines 10-112). -/
def tryBlock (rt : Runtime) : Exec Unit :=
  Exec.bind (setup rt) fun session => inference rt session

/-- The function `main` (lines 9-118): the `try` block, the `catch (const Ort::Exception& e)`
handler, and `return 0;` after them. -/
def main (rt : Runtime) : Outcome :=
  match (tryBlock rt).res with
  | Result.ok _ => ⟨(tryBlock rt).log, 0⟩
  | Result.ret code => ⟨(tryBlock rt).log, code⟩
  | Result.throw what =>
    ⟨(tryBlock rt).log ++ [Event.cerr ("ONNX Runtime Exception: " ++ what)], -1⟩

end CudaInference

/-! ## `CppExamples/Inference/DirectML/DirectMLInference/Program.cpp` -/

namespace DirectMLInference

/-- The model path constant of the program (line 13). -/
def modelFilePath : String := "<YOUR_ONNX_MODEL>"

def input_ids_shape : List Int := [1, 3]

def input_ids_data : List Int := [1, 2, 3]

def position_ids_shape : List Int := [1, 3]

def position_ids_data : List Int := [0, 1, 2]

def attention_mask_shape : List Int := [1, 3]

def attention_mask_data : List Int := [1, 1, 1]

/-- Shape of a past key/value tensor: sequence length 0 (line 74). -/
def past_shape : List Int := [1, 32, 0, 96]

/-- The empty `std::vector<uint16_t>` behind every past tensor (line 75). -/
def past_data : List Int := []

/-- Lines 19-42: the DirectML API lookup with its check, environment, session
options with the two DirectML settings, the provider append with its status check, and
session construction. -/
def setup (rt : Runtime) : Exec Session :=
  let status := rt.GetExecutionProviderApi.1
  let ortDmlApi := rt.GetExecutionProviderApi.2
  Exec.bind (Exec.emit
    (Event.GetExecutionProviderApi "DML" rt.ORT_API_VERSION status ortDmlApi)) fun _ =>
  if status.isSome || !ortDmlApi then
    Exec.bind (Exec.emit (Event.GetErrorMessage status)) fun _ =>
    let errorMessage := rt.GetErrorMessage status
    Exec.bind (Exec.emit (Event.cerr
      ("Error retrieving DML API pointer: " ++ errorMessage))) fun _ =>
    Exec.returnWith (-1)
  else
    Exec.bind (Exec.emit (Event.cout "DML API pointer successfully retrieved.")) fun _ =>
    Exec.bind (Exec.call (Event.Env OrtLoggingLevel.VERBOSE "DML_Debug") rt.Env) fun _ =>
    Exec.bind (Exec.call Event.NewSessionOptions rt.NewSessionOptions) fun sessionOptions0 =>
    Exec.bind (Exec.call (Event.SetExecutionMode ExecutionMode.ORT_SEQUENTIAL)
      rt.SetExecutionMode) fun _ =>
    let sessionOptions1 := sessionOptions0.SetExecutionMode ExecutionMode.ORT_SEQUENTIAL
    Exec.bind (Exec.call Event.DisableMemPattern rt.DisableMemPattern) fun _ =>
    let sessionOptions := sessionOptions1.DisableMemPattern
    let status2 := rt.AppendExecutionProvider_DML
    Exec.bind (Exec.emit (Event.AppendExecutionProvider_DML sessionOptions 0 status2)) fun _ =>
    if status2.isSome then
      Exec.bind (Exec.emit (Event.cerr "Failed to append DirectML execution provider.")) fun _ =>
      Exec.returnWith (-1)
    else
      Exec.call (Event.Session modelFilePath (sessionOptions.append (Provider.DML 0))) rt.Session

/-- Input assembly (lines 58-102): `memory_info`, the three fixed tensors pushed
onto `input_tensors`, then the loop `for (size_t i = 3; i < num_inputs; i++)`,
which pushes one past tensor per iteration: `num_inputs - 3` iterations, none
when `num_inputs <= 3`. -/
def assembleInputs (rt : Runtime) (num_inputs : Nat) : Exec (List Tensor) :=
  Exec.bind (Exec.call Event.CreateCpu rt.CreateCpu) fun _ =>
  Exec.bind (createTensor rt 0 (CreateTensorInt64 input_ids_data input_ids_data.length
    input_ids_shape input_ids_shape.length)) fun input_ids_tensor =>
  Exec.bind (createTensor rt 1 (CreateTensorInt64 position_ids_data position_ids_data.length
    position_ids_shape position_ids_shape.length)) fun position_ids_tensor =>
  Exec.bind (createTensor rt 2 (CreateTensorInt64 attention_mask_data attention_mask_data.length
    attention_mask_shape attention_mask_shape.length)) fun attention_mask_tensor =>
  Exec.bind (Exec.forCount (fun i => createTensor rt i (CreateTensorRaw past_data
    (past_data.length * sizeofUInt16) past_shape past_shape.length ElemType.float16))
    3 (num_inputs - 3)) fun past_tensors =>
  Exec.pure ([input_ids_tensor, position_ids_tensor, attention_mask_tensor] ++ past_tensors)

/-- Output reporting (lines 124-133): the `if`/`else` after the run call. The
condition `!output_tensors.empty() && output_tensors[0].IsTensor()` calls
`IsTensor` only on a non-empty list. -/
def report (rt : Runtime) : List OrtValue → Exec Unit
  | [] => Exec.emit (Event.cout "No logits output tensor found.")
  | first :: _ =>
    Exec.bind (Exec.emit (Event.IsTensor 0)) fun _ =>
    if first.IsTensor then
      Exec.bind (Exec.emit (Event.GetTensorMutableData 0)) fun _ =>
      Exec.bind (Exec.emit (Event.cout "Logits output, first few values:")) fun _ =>
      Exec.bind (Exec.forCount (fun i =>
        Exec.bind (Exec.emit (Event.readElement i)) fun _ =>
        Exec.emit (Event.cout ("  " ++ rt.showFloat (elementAt rt first.GetTensorMutableData i))))
        0 10) fun _ =>
      Exec.pure ()
    else
      Exec.emit (Event.cout "No logits output tensor found.")

/-- From the allocator to the end of the `try` block (lines 43-133): name
enumeration, input assembly, the run call and output reporting. -/
def inference (rt : Runtime) (session : Session) : Exec Unit :=
  Exec.bind (Exec.call Event.AllocatorWithDefaultOptions rt.AllocatorWithDefaultOptions) fun _ =>
  Exec.bind (Exec.call Event.GetInputCount session.GetInputCount) fun num_inputs =>
  Exec.bind (Exec.forCount (fun i =>
    Exec.call (Event.GetInputNameAllocated i) (session.GetInputNameAllocated i))
    0 num_inputs) fun input_names =>
  Exec.bind (Exec.emit (Event.cout "Input Names:")) fun _ =>
  Exec.bind (Exec.printEach input_names) fun _ =>
  Exec.bind (assembleInputs rt num_inputs) fun input_tensors =>
  Exec.bind (Exec.call Event.GetOutputCount session.GetOutputCount) fun num_outputs =>
  Exec.bind (Exec.forCount (fun i =>
    Exec.call (Event.GetOutputNameAllocated i) (session.GetOutputNameAllocated i))
    0 num_outputs) fun output_names =>
  Exec.bind (Exec.call
    (Event.Run input_names input_tensors input_tensors.length output_names output_names.length)
    (session.Run input_names input_tensors input_tensors.length output_names
      output_names.length)) fun output_tensors =>
  report rt output_tensors

/-- The body of the `try` block (lines 11-134). -/
def tryBlock (rt : Runtime) : Exec Unit :=
  Exec.bind (setup rt) fun session => inference rt session

/-- The function `main` (lines 10-140): the `try` block, the `catch (const Ort::Exception& e)`
handler, and `return 0;` after them. -/
def main (rt : Runtime) : Outcome :=
  match (tryBlock rt).res with
  | Result.ok _ => ⟨(tryBlock rt).log, 0⟩
  | Result.ret code => ⟨(tryBlock rt).log, code⟩
  | Result.throw what =>
    ⟨(tryBlock rt).log ++ [Event.cerr ("ONNX Runtime Exception: " ++ what)], -1⟩

end DirectMLInference

/-! ## Sample runtimes -/

/-- A session declaring `n` inputs `in0, in1, ...` and one output `logits`,
whose run call returns `outputs`. -/
def sampleSession (n : Nat) (outputs : List OrtValue) : Session :=
  { GetInputCount := Except.ok n
    GetInputNameAllocated := fun i => Except.ok ("in" ++ toString i)
    GetOutputCount := Except.ok 1
    GetOutputNameAllocated := fun _ => Except.ok "logits"
    Run := fun _ _ _ _ _ => Except.ok outputs }

/-- A runtime in which every call succeeds and the session is `s`. -/
def sampleRuntime (s : Session) : Runtime :=
  { ORT_API_VERSION := 17
    GetErrorMessage := fun status =>
      match status with
      | some st => st.msg
      | none => ""
    Env := Except.ok ()
    NewSessionOptions := Except.ok
      { executionMode := ExecutionMode.ORT_PARALLEL, memPattern := true, providers := [] }
    SetExecutionMode := Except.ok ()
    DisableMemPattern := Except.ok ()
    AppendExecutionProvider_CUDA := none
    GetExecutionProviderApi := (none, true)
    AppendExecutionProvider_DML := none
    Session := Except.ok s
    AllocatorWithDefaultOptions := Except.ok ()
    CreateCpu := Except.ok ()
    CreateTensor := fun _ _ => Except.ok ()
    showFloat := fun v => toString v
    strayFloat := fun _ => 0 }

/-! ## Projections of a log -/

/-- The lines written to standard output, in order. -/
def coutLines : List Event → List String
  | [] => []
  | Event.cout line :: rest => line :: coutLines rest
  | _ :: rest => coutLines rest

/-- The lines written to standard error, in order. -/
def cerrLines : List Event → List String
  | [] => []
  | Event.cerr line :: rest => line :: cerrLines rest
  | _ :: rest => cerrLines rest

/-- The indices at which the output buffer is read, in order. -/
def readIndices : List Event → List Nat
  | [] => []
  | Event.readElement i :: rest => i :: readIndices rest
  | _ :: rest => readIndices rest

/-- Session construction. -/
def Event.isSessionConstruction : Event → Bool
  | Event.Session _ _ => true
  | _ => false

/-- The runtime calls that use a constructed session or come after it:
allocator, name enumeration, tensor creation, the run call and the reads of
its result. -/
def Event.usesSession : Event → Bool
  | Event.AllocatorWithDefaultOptions => true
  | Event.GetInputCount => true
  | Event.GetInputNameAllocated _ => true
  | Event.CreateCpu => true
  | Event.CreateTensor _ => true
  | Event.GetOutputCount => true
  | Event.GetOutputNameAllocated _ => true
  | Event.Run _ _ _ _ _ => true
  | Event.IsTensor _ => true
  | Event.GetTensorMutableData _ => true
  | Event.readElement _ => true
  | _ => false

/-- The events the part of a program after session construction can
produce: the calls of `Event.usesSession` and lines on standard output. -/
def Event.afterSetup : Event → Bool
  | Event.cout _ => true
  | e => e.usesSession

/-! ## Sample runtimes and setup logs used in the statements -/

/-- The events of a CUDA setup in which every step succeeds, from default
options `o`. -/
def cudaSetupEvents (o : SessionOptions) : List Event :=
  [Event.Env OrtLoggingLevel.VERBOSE "CUDA_Debug", Event.NewSessionOptions,
    Event.AppendExecutionProvider_CUDA o 0 none,
    Event.cout "CUDA execution provider appended successfully.",
    Event.Session "<YOUR MODEL>" (o.append (Provider.CUDA 0))]

/-- The options the DirectML program holds after its two settings, from
default options `o`. -/
def dmlConfigured (o : SessionOptions) : SessionOptions :=
  (o.SetExecutionMode ExecutionMode.ORT_SEQUENTIAL).DisableMemPattern

/-- The events of a DirectML setup in which every step succeeds, from
default options `o`. -/
def dmlSetupEvents (version : Nat) (o : SessionOptions) : List Event :=
  [Event.GetExecutionProviderApi "DML" version none true,
    Event.cout "DML API pointer successfully retrieved.",
    Event.Env OrtLoggingLevel.VERBOSE "DML_Debug", Event.NewSessionOptions,
    Event.SetExecutionMode ExecutionMode.ORT_SEQUENTIAL, Event.DisableMemPattern,
    Event.AppendExecutionProvider_DML (dmlConfigured o) 0 none,
    Event.Session "<YOUR_ONNX_MODEL>" ((dmlConfigured o).append (Provider.DML 0))]

/-- A runtime whose CUDA provider append fails. -/
def cudaAppendFails : Runtime :=
  { sampleRuntime (sampleSession 3 []) with
    AppendExecutionProvider_CUDA := some ⟨"no CUDA device"⟩ }

/-- A runtime whose DirectML provider append fails. -/
def dmlAppendFails : Runtime :=
  { sampleRuntime (sampleSession 3 []) with
    AppendExecutionProvider_DML := some ⟨"no DirectML device"⟩ }

/-- A runtime in which loading the model throws. -/
def modelLoadThrows : Runtime :=
  { sampleRuntime (sampleSession 3 []) with Session := Except.error "Load model failed" }

/-- The session options an event hands to the runtime when it is the
DirectML provider append or a session construction. -/
def Event.optionsInUse : Event → Option SessionOptions
  | Event.AppendExecutionProvider_DML options _ _ => some options
  | Event.Session _ options => some options
  | _ => none

/-- A runtime whose DirectML API lookup returns a null status together with
a null API pointer. -/
def nullApiPointer : Runtime :=
  { sampleRuntime (sampleSession 3 []) with GetExecutionProviderApi := (none, false) }

/-! ## Reasoning about executions -/

namespace Exec

theorem mem_log_bind {α β : Type} (x : Exec α) (f : α → Exec β) (e : Event) :
    e ∈ (x.bind f).log ↔ e ∈ x.log ∨ ∃ v, x.res = Result.ok v ∧ e ∈ (f v).log := by
  unfold bind
  cases h : x.res <;> simp

theorem res_bind_ok {α β : Type} (x : Exec α) (f : α → Exec β) (w : β) :
    (x.bind f).res = Result.ok w ↔ ∃ v, x.res = Result.ok v ∧ (f v).res = Result.ok w := by
  unfold bind
  cases h : x.res <;> simp

theorem bind_of_ok {α β : Type} {x : Exec α} {f : α → Exec β} {v : α}
    (h : x.res = Result.ok v) : x.bind f = ⟨x.log ++ (f v).log, (f v).res⟩ := by
  unfold bind
  rw [h]

theorem bind_of_throw {α β : Type} {x : Exec α} {f : α → Exec β} {what : String}
    (h : x.res = Result.throw what) : x.bind f = ⟨x.log, Result.throw what⟩ := by
  unfold bind
  rw [h]

theorem bind_of_ret {α β : Type} {x : Exec α} {f : α → Exec β} {code : Int}
    (h : x.res = Result.ret code) : x.bind f = ⟨x.log, Result.ret code⟩ := by
  unfold bind
  rw [h]

theorem mem_log_call {α : Type} (e0 : Event) (o : Except String α) (e : Event) :
    e ∈ (call e0 o).log ↔ e = e0 := by
  unfold call
  cases o <;> simp

theorem res_call_ok {α : Type} (e0 : Event) (o : Except String α) (v : α) :
    (call e0 o).res = Result.ok v ↔ o = Except.ok v := by
  unfold call
  cases o <;> simp

theorem call_never_returns {α : Type} (e0 : Event) (o : Except String α) (code : Int) :
    (call e0 o).res ≠ Result.ret code := by
  unfold call
  cases o <;> simp

theorem mem_log_emit (e0 e : Event) : e ∈ (emit e0).log ↔ e = e0 := by
  simp [emit]

theorem res_emit (e0 : Event) : (emit e0).res = Result.ok () := rfl

theorem mem_log_printEach (xs : List String) (e : Event) :
    e ∈ (printEach xs).log ↔ ∃ x ∈ xs, e = Event.cout ("  " ++ x) := by
  simp only [printEach, List.mem_map]
  constructor
  · rintro ⟨x, hx, rfl⟩
    exact ⟨x, hx, rfl⟩
  · rintro ⟨x, hx, rfl⟩
    exact ⟨x, hx, rfl⟩

/-- Every event of a loop comes from one of its iterations. -/
theorem mem_log_forCount {α : Type} (body : Nat → Exec α) (e : Event) :
    ∀ (count start : Nat), e ∈ (forCount body start count).log →
      ∃ i, start ≤ i ∧ i < start + count ∧ e ∈ (body i).log := by
  intro count
  induction count with
  | zero =>
    intro start h
    simp [forCount, pure] at h
  | succ n ih =>
    intro start h
    simp only [forCount, mem_log_bind] at h
    rcases h with h | ⟨v, _, h | ⟨vs, _, h⟩⟩
    · exact ⟨start, le_refl _, by omega, h⟩
    · obtain ⟨i, h1, h2, h3⟩ := ih (start + 1) h
      exact ⟨i, by omega, by omega, h3⟩
    · simp [pure] at h

/-- A loop that runs to its end ran every iteration to its end, and collected
what the iterations yielded, in order. -/
theorem res_forCount_ok {α : Type} (body : Nat → Exec α) :
    ∀ (count start : Nat) (vs : List α), (forCount body start count).res = Result.ok vs →
      vs.length = count ∧
      ∀ i (h : i < vs.length), (body (start + i)).res = Result.ok (vs.get ⟨i, h⟩) := by
  intro count
  induction count with
  | zero =>
    intro start vs h
    simp only [forCount, pure] at h
    cases h
    simp
  | succ n ih =>
    intro start vs h
    simp only [forCount, res_bind_ok] at h
    obtain ⟨v, hv, ws, hws, hp⟩ := h
    simp only [pure] at hp
    cases hp
    obtain ⟨hlen, hget⟩ := ih (start + 1) ws hws
    refine ⟨by simp [hlen], ?_⟩
    intro i hi
    cases i with
    | zero => simpa using hv
    | succ j =>
      have hj : j < ws.length := by simpa using hi
      have := hget j hj
      simpa [Nat.add_assoc, Nat.add_comm 1 j] using this

/-- A loop whose iterations all run to their ends runs to its end. -/
theorem forCount_of_ok {α : Type} (body : Nat → Exec α) (val : Nat → α)
    (h : ∀ i, (body i).res = Result.ok (val i)) :
    ∀ (count start : Nat), (forCount body start count).res =
      Result.ok ((List.range count).map fun i => val (start + i)) := by
  intro count
  induction count with
  | zero =>
    intro start
    simp [forCount, pure]
  | succ n ih =>
    intro start
    simp only [forCount]
    rw [bind_of_ok (h start), bind_of_ok (ih (start + 1))]
    simp only [pure, List.range_succ_eq_map, List.map_cons, List.map_map]
    congr 2
    · apply List.map_congr_left
      intro i _
      simp only [Function.comp]
      congr 1
      omega

end Exec

/-! ## Input assembly -/

theorem createTensor_of_ok (rt : Runtime) (i : Nat) (t : Tensor)
    (h : rt.CreateTensor i t = Except.ok ()) :
    createTensor rt i t = ⟨[Event.CreateTensor t], Result.ok t⟩ := by
  unfold createTensor
  rw [h]

theorem mem_log_createTensor (rt : Runtime) (i : Nat) (t : Tensor) (e : Event) :
    e ∈ (createTensor rt i t).log ↔ e = Event.CreateTensor t := by
  unfold createTensor
  cases rt.CreateTensor i t <;> simp

theorem res_createTensor_ok (rt : Runtime) (i : Nat) (t v : Tensor)
    (h : (createTensor rt i t).res = Result.ok v) : v = t := by
  unfold createTensor at h
  cases h2 : rt.CreateTensor i t <;> rw [h2] at h <;> simp at h
  exact h.symm

/-- The two programs assemble their inputs by the same statements. -/
theorem assembleInputs_eq (rt : Runtime) (num_inputs : Nat) :
    DirectMLInference.assembleInputs rt num_inputs = CudaInference.assembleInputs rt num_inputs :=
  rfl

/-- Input assembly that runs to its end yields the three fixed tensors
followed by `num_inputs - 3` past tensors. -/
theorem assembleInputs_ok (rt : Runtime) (num_inputs : Nat) (ts : List Tensor)
    (h : (CudaInference.assembleInputs rt num_inputs).res = Result.ok ts) :
    ts = [⟨ElemType.int64, [1, 3], [1, 2, 3], 24⟩, ⟨ElemType.int64, [1, 3], [0, 1, 2], 24⟩,
        ⟨ElemType.int64, [1, 3], [1, 1, 1], 24⟩] ++
      List.replicate (num_inputs - 3) ⟨ElemType.float16, [1, 32, 0, 96], [], 0⟩ := by
  simp only [CudaInference.assembleInputs, Exec.res_bind_ok] at h
  obtain ⟨_, _, t0, h0, t1, h1, t2, h2, past, hp, hr⟩ := h
  have e0 := res_createTensor_ok _ _ _ _ h0
  have e1 := res_createTensor_ok _ _ _ _ h1
  have e2 := res_createTensor_ok _ _ _ _ h2
  obtain ⟨hlen, hget⟩ := Exec.res_forCount_ok _ _ _ _ hp
  have hpast : past = List.replicate (num_inputs - 3) ⟨ElemType.float16, [1, 32, 0, 96], [], 0⟩ := by
    apply List.ext_get
    · simp [hlen]
    · intro i hi1 hi2
      have := res_createTensor_ok _ _ _ _ (hget i hi1)
      simp only [List.get_eq_getElem] at this
      simp only [List.get_eq_getElem, List.getElem_replicate]
      rw [this]
      rfl
  simp only [Exec.pure, Result.ok.injEq] at hr
  rw [← hr, e0, e1, e2, hpast]
  rfl

/-- Input assembly runs to its end when no tensor-creation call throws. -/
theorem assembleInputs_of_ok (rt : Runtime) (num_inputs : Nat)
    (hcpu : rt.CreateCpu = Except.ok ()) (hct : ∀ i t, rt.CreateTensor i t = Except.ok ()) :
    (CudaInference.assembleInputs rt num_inputs).res = Result.ok
      ([⟨ElemType.int64, [1, 3], [1, 2, 3], 24⟩, ⟨ElemType.int64, [1, 3], [0, 1, 2], 24⟩,
        ⟨ElemType.int64, [1, 3], [1, 1, 1], 24⟩] ++
      List.replicate (num_inputs - 3) ⟨ElemType.float16, [1, 32, 0, 96], [], 0⟩) := by
  have hloop := Exec.forCount_of_ok
    (fun i => createTensor rt i (CreateTensorRaw CudaInference.past_data
      (CudaInference.past_data.length * sizeofUInt16) CudaInference.past_shape
      CudaInference.past_shape.length ElemType.float16))
    (fun _ => CreateTensorRaw CudaInference.past_data
      (CudaInference.past_data.length * sizeofUInt16) CudaInference.past_shape
      CudaInference.past_shape.length ElemType.float16)
    (fun i => by show (createTensor rt i _).res = _; rw [createTensor_of_ok rt i _ (hct i _)]) (num_inputs - 3) 3
  have hcall : (Exec.call Event.CreateCpu rt.CreateCpu).res = Result.ok () := by
    rw [hcpu]; rfl
  unfold CudaInference.assembleInputs
  rw [Exec.bind_of_ok hcall, createTensor_of_ok rt 0 _ (hct 0 _),
    createTensor_of_ok rt 1 _ (hct 1 _), createTensor_of_ok rt 2 _ (hct 2 _)]
  simp only [Exec.bind, hloop, Exec.pure]
  simp only [List.map_const', List.length_range]
  rfl

/-- Claim C1. In both programs, when the session declares `N >= 3` inputs
and no tensor-creation call throws, input assembly yields exactly `N`
tensors: first the int64 tensors of shape [1,3] holding [1,2,3], [0,1,2] and
[1,1,1], then `N - 3` float16 tensors of shape [1,32,0,96] over a zero-byte
buffer, whose shape has element count 0, the length of that buffer. -/
theorem C1_input_assembly (rt : Runtime) (N : Nat) (hN : 3 ≤ N)
    (hcpu : rt.CreateCpu = Except.ok ()) (hct : ∀ i t, rt.CreateTensor i t = Except.ok ()) :
    ∃ ts : List Tensor,
      (CudaInference.assembleInputs rt N).res = Result.ok ts ∧
      (DirectMLInference.assembleInputs rt N).res = Result.ok ts ∧
      ts.length = N ∧
      ts.take 3 = [⟨ElemType.int64, [1, 3], [1, 2, 3], 24⟩,
        ⟨ElemType.int64, [1, 3], [0, 1, 2], 24⟩, ⟨ElemType.int64, [1, 3], [1, 1, 1], 24⟩] ∧
      (ts.drop 3).length = N - 3 ∧
      ∀ t ∈ ts.drop 3, t.elemType = ElemType.float16 ∧ t.shape = [1, 32, 0, 96] ∧
        t.data = [] ∧ t.byteLen = 0 ∧ t.elementCount = 0 ∧ t.elementCount = t.byteLen := by
  refine ⟨_, assembleInputs_of_ok rt N hcpu hct, ?_, ?_, ?_, ?_, ?_⟩
  · rw [assembleInputs_eq]
    exact assembleInputs_of_ok rt N hcpu hct
  · simp
    omega
  · simp
  · simp
  · intro t ht
    simp only [List.cons_append, List.nil_append, List.drop_succ_cons, List.drop_zero] at ht
    rw [List.eq_of_mem_replicate ht]
    simp [Tensor.elementCount]

/-- Claim C1 at a session with five declared inputs. -/
theorem C1_input_assembly_witness :
    ∃ ts : List Tensor,
      (CudaInference.assembleInputs (sampleRuntime (sampleSession 5 [])) 5).res = Result.ok ts ∧
      (DirectMLInference.assembleInputs (sampleRuntime (sampleSession 5 [])) 5).res =
        Result.ok ts ∧
      ts.length = 5 ∧
      ts.take 3 = [⟨ElemType.int64, [1, 3], [1, 2, 3], 24⟩,
        ⟨ElemType.int64, [1, 3], [0, 1, 2], 24⟩, ⟨ElemType.int64, [1, 3], [1, 1, 1], 24⟩] ∧
      (ts.drop 3).length = 5 - 3 ∧
      ∀ t ∈ ts.drop 3, t.elemType = ElemType.float16 ∧ t.shape = [1, 32, 0, 96] ∧
        t.data = [] ∧ t.byteLen = 0 ∧ t.elementCount = 0 ∧ t.elementCount = t.byteLen :=
  C1_input_assembly (sampleRuntime (sampleSession 5 [])) 5 (by decide) rfl (fun _ _ => rfl)

/-! ## Output reporting -/

/-- The two programs report their output by the same statements. -/
theorem report_eq (rt : Runtime) (output_tensors : List OrtValue) :
    DirectMLInference.report rt output_tensors = CudaInference.report rt output_tensors := by
  cases output_tensors <;> rfl

/-- Output reporting without a first tensor: the check and the message. -/
theorem report_of_not_tensor (rt : Runtime) (first : OrtValue) (rest : List OrtValue)
    (h : first.IsTensor = false) :
    CudaInference.report rt (first :: rest) =
      ⟨[Event.IsTensor 0, Event.cout "No logits output tensor found."], Result.ok ()⟩ := by
  simp [CudaInference.report, h, Exec.bind, Exec.emit]

/-- Output reporting with a first tensor: the header and ten reads. -/
theorem report_of_tensor (rt : Runtime) (buffer : List Nat) (rest : List OrtValue) :
    CudaInference.report rt (OrtValue.tensor buffer :: rest) =
      ⟨[Event.IsTensor 0, Event.GetTensorMutableData 0,
          Event.cout "Logits output, first few values:"] ++
        (List.range 10).flatMap (fun i =>
          [Event.readElement i, Event.cout ("  " ++ rt.showFloat (elementAt rt buffer i))]),
        Result.ok ()⟩ := by
  simp [CudaInference.report, OrtValue.IsTensor, OrtValue.GetTensorMutableData, Exec.bind,
    Exec.emit, Exec.forCount, Exec.pure, List.range_succ, List.flatMap]

/-- Output reporting always runs to its end. -/
theorem report_res (rt : Runtime) (output_tensors : List OrtValue) :
    (CudaInference.report rt output_tensors).res = Result.ok () := by
  cases output_tensors with
  | nil => rfl
  | cons first rest =>
    cases first with
    | tensor buffer => rw [report_of_tensor]
    | nonTensor => rw [report_of_not_tensor rt OrtValue.nonTensor rest rfl]

/-- Claim C4. In both programs, when the run call returns no output or a
first output that is not a tensor, output reporting writes exactly the line
"No logits output tensor found." to standard output, nothing to standard
error, never calls GetTensorMutableData and reads no element of any buffer. -/
theorem C4_no_logits_output (rt : Runtime) (output_tensors : List OrtValue)
    (h : output_tensors = [] ∨
      ∃ first rest, output_tensors = first :: rest ∧ first.IsTensor = false) :
    (coutLines (CudaInference.report rt output_tensors).log =
        ["No logits output tensor found."] ∧
      cerrLines (CudaInference.report rt output_tensors).log = [] ∧
      readIndices (CudaInference.report rt output_tensors).log = [] ∧
      ∀ i, Event.GetTensorMutableData i ∉ (CudaInference.report rt output_tensors).log) ∧
    (coutLines (DirectMLInference.report rt output_tensors).log =
        ["No logits output tensor found."] ∧
      cerrLines (DirectMLInference.report rt output_tensors).log = [] ∧
      readIndices (DirectMLInference.report rt output_tensors).log = [] ∧
      ∀ i, Event.GetTensorMutableData i ∉ (DirectMLInference.report rt output_tensors).log) := by
  rw [report_eq]
  refine ⟨?_, ?_⟩ <;>
  · rcases h with h | ⟨first, rest, h, hf⟩
    · subst h
      simp [CudaInference.report, Exec.emit, coutLines, cerrLines, readIndices]
    · subst h
      rw [report_of_not_tensor rt first rest hf]
      simp [coutLines, cerrLines, readIndices]

/-- Claim C4 at an empty output list and at a non-tensor first output. -/
theorem C4_no_logits_output_witness :
    (coutLines (CudaInference.report (sampleRuntime (sampleSession 3 [])) []).log =
        ["No logits output tensor found."] ∧
      coutLines (DirectMLInference.report (sampleRuntime (sampleSession 3 []))
        [OrtValue.nonTensor, OrtValue.tensor [7]]).log = ["No logits output tensor found."]) :=
  ⟨(C4_no_logits_output (sampleRuntime (sampleSession 3 [])) [] (Or.inl rfl)).1.1,
   (C4_no_logits_output (sampleRuntime (sampleSession 3 [])) [OrtValue.nonTensor, OrtValue.tensor [7]]
      (Or.inr ⟨_, _, rfl, rfl⟩)).2.1⟩

theorem readIndices_append (l1 l2 : List Event) :
    readIndices (l1 ++ l2) = readIndices l1 ++ readIndices l2 := by
  induction l1 with
  | nil => rfl
  | cons e rest ih => cases e <;> simp [readIndices, ih]

theorem elementAt_of_lt (rt : Runtime) (buffer : List Nat) (i : Nat) (h : i < buffer.length) :
    elementAt rt buffer i = buffer.get ⟨i, h⟩ := by
  simp [elementAt, List.getElem?_eq_getElem h]

theorem elementAt_of_ge (rt : Runtime) (buffer : List Nat) (i : Nat) (h : buffer.length ≤ i) :
    elementAt rt buffer i = rt.strayFloat i := by
  simp [elementAt, List.getElem?_eq_none h]

/-- Claim C8. In both programs, when the first output of the run call is a
dense tensor with a buffer of `n` elements, output reporting writes the
header line and then, for `i = 0, 1, ..., 9` in this order, reads
`logits_data[i]` and writes it on a line of its own, whatever `n` is; an
index inside the buffer yields the buffer element; all reads are within
bounds exactly when `n >= 10`, and for `n < 10` index `n` is read, past the
end of the buffer. -/
theorem C8_ten_reads (rt : Runtime) (buffer : List Nat) (rest : List OrtValue) :
    (CudaInference.report rt (OrtValue.tensor buffer :: rest)).log =
      [Event.IsTensor 0, Event.GetTensorMutableData 0,
          Event.cout "Logits output, first few values:"] ++
        (List.range 10).flatMap (fun i =>
          [Event.readElement i, Event.cout ("  " ++ rt.showFloat (elementAt rt buffer i))]) ∧
    (DirectMLInference.report rt (OrtValue.tensor buffer :: rest)).log =
      (CudaInference.report rt (OrtValue.tensor buffer :: rest)).log ∧
    readIndices (CudaInference.report rt (OrtValue.tensor buffer :: rest)).log =
      [0, 1, 2, 3, 4, 5, 6, 7, 8, 9] ∧
    (∀ i (h : i < buffer.length), elementAt rt buffer i = buffer.get ⟨i, h⟩) ∧
    ((∀ i ∈ readIndices (CudaInference.report rt (OrtValue.tensor buffer :: rest)).log,
        i < buffer.length) ↔ 10 ≤ buffer.length) ∧
    (buffer.length < 10 →
      buffer.length ∈ readIndices (CudaInference.report rt (OrtValue.tensor buffer :: rest)).log ∧
      elementAt rt buffer buffer.length = rt.strayFloat buffer.length) := by
  have hreads : readIndices (CudaInference.report rt (OrtValue.tensor buffer :: rest)).log =
      [0, 1, 2, 3, 4, 5, 6, 7, 8, 9] := by
    rw [report_of_tensor]
    simp [List.range_succ, List.flatMap, readIndices]
  refine ⟨by rw [report_of_tensor], by rw [report_eq], hreads, elementAt_of_lt rt buffer, ?_, ?_⟩
  · rw [hreads]
    constructor
    · intro h
      have := h 9 (by simp)
      omega
    · intro h i hi
      simp at hi
      omega
  · intro h
    refine ⟨?_, elementAt_of_ge rt buffer _ (le_refl _)⟩
    rw [hreads]
    simp only [List.mem_cons, List.mem_singleton]
    omega

/-- Claim C8 at an output tensor of three elements: index 3 is read. -/
theorem C8_ten_reads_witness :
    3 ∈ readIndices (CudaInference.report (sampleRuntime (sampleSession 3 []))
      (OrtValue.tensor [5, 6, 7] :: [])).log :=
  ((C8_ten_reads (sampleRuntime (sampleSession 3 [])) [5, 6, 7] []).2.2.2.2.2 (by decide)).1

/-! ## The part after session construction -/

namespace Exec

theorem forall_log_bind {α β : Type} {P : Event → Prop} (x : Exec α) (f : α → Exec β)
    (hx : ∀ e ∈ x.log, P e) (hf : ∀ v, ∀ e ∈ (f v).log, P e) :
    ∀ e ∈ (x.bind f).log, P e := by
  intro e he
  rcases (mem_log_bind x f e).mp he with h | ⟨v, _, h⟩
  · exact hx e h
  · exact hf v e h

theorem forall_log_forCount {α : Type} {P : Event → Prop} (body : Nat → Exec α)
    (h : ∀ i, ∀ e ∈ (body i).log, P e) (count start : Nat) :
    ∀ e ∈ (forCount body start count).log, P e := by
  intro e he
  obtain ⟨i, _, _, hi⟩ := mem_log_forCount body e count start he
  exact h i e hi

theorem mem_log_bind_of_not_mem {α β : Type} {x : Exec α} {f : α → Exec β} {e : Event}
    (hx : e ∉ x.log) (h : e ∈ (x.bind f).log) :
    ∃ v, x.res = Result.ok v ∧ e ∈ (f v).log := by
  rcases (mem_log_bind x f e).mp h with h | h
  · exact absurd h hx
  · exact h

theorem forCount_never_returns {α : Type} (body : Nat → Exec α)
    (h : ∀ i code, (body i).res ≠ Result.ret code) :
    ∀ (count start : Nat) (code : Int), (forCount body start count).res ≠ Result.ret code := by
  intro count
  induction count with
  | zero =>
    intro start code
    simp [forCount, pure]
  | succ n ih =>
    intro start code
    simp only [forCount]
    cases hb : (body start).res with
    | ok v =>
      rw [bind_of_ok hb]
      cases hr : (forCount body (start + 1) n).res with
      | ok vs => rw [bind_of_ok hr]; simp [pure]
      | ret c => exact absurd hr (ih _ _)
      | throw w => rw [bind_of_throw hr]; simp
    | ret c => exact absurd hb (h _ _)
    | throw w => rw [bind_of_throw hb]; simp

theorem bind_never_returns {α β : Type} (x : Exec α) (f : α → Exec β)
    (hx : ∀ code, x.res ≠ Result.ret code) (hf : ∀ v code, (f v).res ≠ Result.ret code) :
    ∀ code, (x.bind f).res ≠ Result.ret code := by
  intro code
  cases h : x.res with
  | ok v => rw [bind_of_ok h]; exact hf v code
  | ret c => exact absurd h (hx c)
  | throw w => rw [bind_of_throw h]; simp

end Exec

theorem createTensor_never_returns (rt : Runtime) (i : Nat) (t : Tensor) (code : Int) :
    (createTensor rt i t).res ≠ Result.ret code := by
  unfold createTensor
  cases rt.CreateTensor i t <;> simp

/-- Input assembly only creates the memory info and tensors. -/
theorem mem_log_assembleInputs (rt : Runtime) (num_inputs : Nat) :
    ∀ e ∈ (CudaInference.assembleInputs rt num_inputs).log,
      e = Event.CreateCpu ∨ ∃ t, e = Event.CreateTensor t := by
  unfold CudaInference.assembleInputs
  refine Exec.forall_log_bind _ _ (fun e he => Or.inl ((Exec.mem_log_call _ _ _).mp he)) ?_
  intro _
  refine Exec.forall_log_bind _ _
    (fun e he => Or.inr ⟨_, (mem_log_createTensor _ _ _ _).mp he⟩) ?_
  intro _
  refine Exec.forall_log_bind _ _
    (fun e he => Or.inr ⟨_, (mem_log_createTensor _ _ _ _).mp he⟩) ?_
  intro _
  refine Exec.forall_log_bind _ _
    (fun e he => Or.inr ⟨_, (mem_log_createTensor _ _ _ _).mp he⟩) ?_
  intro _
  refine Exec.forall_log_bind _ _ ?_ ?_
  · exact Exec.forall_log_forCount _
      (fun i e he => Or.inr ⟨_, (mem_log_createTensor _ _ _ _).mp he⟩) _ _
  · intro _ e he
    simp [Exec.pure] at he

theorem assembleInputs_never_returns (rt : Runtime) (num_inputs : Nat) (code : Int) :
    (CudaInference.assembleInputs rt num_inputs).res ≠ Result.ret code := by
  unfold CudaInference.assembleInputs
  refine Exec.bind_never_returns _ _ (Exec.call_never_returns _ _) ?_ code
  intro _
  refine Exec.bind_never_returns _ _ (createTensor_never_returns _ _ _) ?_
  intro _
  refine Exec.bind_never_returns _ _ (createTensor_never_returns _ _ _) ?_
  intro _
  refine Exec.bind_never_returns _ _ (createTensor_never_returns _ _ _) ?_
  intro _
  refine Exec.bind_never_returns _ _
    (Exec.forCount_never_returns _ (fun _ => createTensor_never_returns _ _ _) _ _) ?_
  intro _ c
  simp [Exec.pure]

/-- The events of output reporting. -/
theorem mem_log_report (rt : Runtime) (output_tensors : List OrtValue) :
    ∀ e ∈ (CudaInference.report rt output_tensors).log,
      e = Event.IsTensor 0 ∨ e = Event.GetTensorMutableData 0 ∨
      (∃ i, e = Event.readElement i) ∨ ∃ line, e = Event.cout line := by
  intro e he
  cases output_tensors with
  | nil =>
    simp [CudaInference.report, Exec.emit] at he
    exact Or.inr (Or.inr (Or.inr ⟨_, he⟩))
  | cons first rest =>
    cases first with
    | tensor buffer =>
      rw [report_of_tensor] at he
      simp only [List.mem_append, List.mem_cons, List.mem_flatMap, List.mem_singleton,
        List.not_mem_nil, or_false] at he
      rcases he with (h | h | h) | ⟨i, _, h | h⟩
      · exact Or.inl h
      · exact Or.inr (Or.inl h)
      · exact Or.inr (Or.inr (Or.inr ⟨_, h⟩))
      · exact Or.inr (Or.inr (Or.inl ⟨_, h⟩))
      · exact Or.inr (Or.inr (Or.inr ⟨_, h⟩))
    | nonTensor =>
      rw [report_of_not_tensor rt OrtValue.nonTensor rest rfl] at he
      simp only [List.mem_cons, List.mem_singleton, List.not_mem_nil, or_false] at he
      rcases he with h | h
      · exact Or.inl h
      · exact Or.inr (Or.inr (Or.inr ⟨_, h⟩))

/-- The two programs run the part after session construction by the same
statements. -/
theorem inference_eq (rt : Runtime) (session : Session) :
    DirectMLInference.inference rt session = CudaInference.inference rt session := by
  unfold DirectMLInference.inference CudaInference.inference
  simp only [assembleInputs_eq, report_eq]

/-- Everything the part after session construction does is a call that uses
the session or a line on standard output. -/
theorem inference_afterSetup (rt : Runtime) (session : Session) :
    ∀ e ∈ (CudaInference.inference rt session).log, e.afterSetup = true := by
  unfold CudaInference.inference
  refine Exec.forall_log_bind _ _ (fun e he => by rw [(Exec.mem_log_call _ _ _).mp he]; rfl) ?_
  intro _
  refine Exec.forall_log_bind _ _ (fun e he => by rw [(Exec.mem_log_call _ _ _).mp he]; rfl) ?_
  intro _
  refine Exec.forall_log_bind _ _ (Exec.forall_log_forCount _
    (fun i e he => by rw [(Exec.mem_log_call _ _ _).mp he]; rfl) _ _) ?_
  intro input_names
  refine Exec.forall_log_bind _ _ (fun e he => by rw [(Exec.mem_log_emit _ _).mp he]; rfl) ?_
  intro _
  refine Exec.forall_log_bind _ _ (fun e he => by
    obtain ⟨x, _, hx⟩ := (Exec.mem_log_printEach _ _).mp he
    rw [hx]; rfl) ?_
  intro _
  refine Exec.forall_log_bind _ _ (fun e he => by
    rcases mem_log_assembleInputs _ _ e he with h | ⟨t, h⟩ <;> rw [h] <;> rfl) ?_
  intro _
  refine Exec.forall_log_bind _ _ (fun e he => by rw [(Exec.mem_log_call _ _ _).mp he]; rfl) ?_
  intro _
  refine Exec.forall_log_bind _ _ (Exec.forall_log_forCount _
    (fun i e he => by rw [(Exec.mem_log_call _ _ _).mp he]; rfl) _ _) ?_
  intro _
  refine Exec.forall_log_bind _ _ (fun e he => by rw [(Exec.mem_log_call _ _ _).mp he]; rfl) ?_
  intro _ e he
  rcases mem_log_report _ _ e he with h | h | ⟨i, h⟩ | ⟨l, h⟩ <;> rw [h] <;> rfl

/-- The part after session construction has no `return` statement. -/
theorem inference_never_returns (rt : Runtime) (session : Session) (code : Int) :
    (CudaInference.inference rt session).res ≠ Result.ret code := by
  unfold CudaInference.inference
  refine Exec.bind_never_returns _ _ (Exec.call_never_returns _ _) ?_ code
  intro _
  refine Exec.bind_never_returns _ _ (Exec.call_never_returns _ _) ?_
  intro _
  refine Exec.bind_never_returns _ _
    (Exec.forCount_never_returns _ (fun _ => Exec.call_never_returns _ _) _ _) ?_
  intro _
  refine Exec.bind_never_returns _ _ (fun c => by simp [Exec.emit]) ?_
  intro _
  refine Exec.bind_never_returns _ _ (fun c => by simp [Exec.printEach]) ?_
  intro _
  refine Exec.bind_never_returns _ _ (assembleInputs_never_returns _ _) ?_
  intro _
  refine Exec.bind_never_returns _ _ (Exec.call_never_returns _ _) ?_
  intro _
  refine Exec.bind_never_returns _ _
    (Exec.forCount_never_returns _ (fun _ => Exec.call_never_returns _ _) _ _) ?_
  intro _
  refine Exec.bind_never_returns _ _ (Exec.call_never_returns _ _) ?_
  intro _ c
  rw [report_res]
  simp

/-- Where a run call in the log comes from: the session reported its input
count, every name was fetched, input assembly ran to its end, and the run
call was made with those names and tensors; what follows it is output
reporting on its result, or nothing if it threw. -/
theorem run_in_inference (rt : Runtime) (session : Session) (names : List String)
    (tensors : List Tensor) (count : Nat) (outs : List String) (outCount : Nat)
    (h : Event.Run names tensors count outs outCount ∈
      (CudaInference.inference rt session).log) :
    ∃ N, session.GetInputCount = Except.ok N ∧
      (Exec.forCount (fun i => Exec.call (Event.GetInputNameAllocated i)
        (session.GetInputNameAllocated i)) 0 N).res = Result.ok names ∧
      (CudaInference.assembleInputs rt N).res = Result.ok tensors ∧
      count = tensors.length ∧ outCount = outs.length ∧
      (CudaInference.inference rt session).res =
        match session.Run names tensors count outs outCount with
        | Except.ok _ => Result.ok ()
        | Except.error what => Result.throw what := by
  unfold CudaInference.inference at h ⊢
  obtain ⟨_, h0, h⟩ := Exec.mem_log_bind_of_not_mem (by simp [Exec.mem_log_call]) h
  rw [Exec.bind_of_ok h0]
  obtain ⟨N, hN, h⟩ := Exec.mem_log_bind_of_not_mem (by simp [Exec.mem_log_call]) h
  rw [Exec.bind_of_ok hN]
  obtain ⟨input_names, hnames, h⟩ := Exec.mem_log_bind_of_not_mem (fun hm => by
    obtain ⟨i, _, _, hi⟩ := Exec.mem_log_forCount _ _ _ _ hm
    simp [Exec.mem_log_call] at hi) h
  rw [Exec.bind_of_ok hnames]
  obtain ⟨_, h1, h⟩ := Exec.mem_log_bind_of_not_mem (by simp [Exec.mem_log_emit]) h
  rw [Exec.bind_of_ok h1]
  obtain ⟨_, h2, h⟩ := Exec.mem_log_bind_of_not_mem (by simp [Exec.mem_log_printEach]) h
  rw [Exec.bind_of_ok h2]
  obtain ⟨input_tensors, htensors, h⟩ := Exec.mem_log_bind_of_not_mem (fun hm => by
    rcases mem_log_assembleInputs _ _ _ hm with h | ⟨t, h⟩ <;> simp at h) h
  rw [Exec.bind_of_ok htensors]
  obtain ⟨M, hM, h⟩ := Exec.mem_log_bind_of_not_mem (by simp [Exec.mem_log_call]) h
  rw [Exec.bind_of_ok hM]
  obtain ⟨output_names, houts, h⟩ := Exec.mem_log_bind_of_not_mem (fun hm => by
    obtain ⟨i, _, _, hi⟩ := Exec.mem_log_forCount _ _ _ _ hm
    simp [Exec.mem_log_call] at hi) h
  rw [Exec.bind_of_ok houts]
  rcases (Exec.mem_log_bind _ _ _).mp h with h | ⟨v, _, h⟩
  · rw [Exec.mem_log_call] at h
    simp only [Event.Run.injEq] at h
    obtain ⟨e1, e2, e3, e4, e5⟩ := h
    subst e1 e2 e4
    refine ⟨N, (Exec.res_call_ok _ _ _).mp hN, hnames, htensors, e3, e5, ?_⟩
    subst e3 e5
    simp only
    cases hr : session.Run names tensors tensors.length outs outs.length with
    | ok v =>
      simp only [Exec.bind, Exec.call]
      exact report_res rt v
    | error what => rfl
  · rcases mem_log_report _ _ _ h with h | h | ⟨i, h⟩ | ⟨l, h⟩ <;> simp at h

/-! ## Provider setup and session construction -/

/-- The ways the CUDA setup can go, by the outcomes of its calls. -/
theorem cuda_setup_cases (rt : Runtime) :
    (∃ what, rt.Env = Except.error what ∧
      CudaInference.setup rt = ⟨[Event.Env OrtLoggingLevel.VERBOSE "CUDA_Debug"], Result.throw what⟩) ∨
    (∃ what, rt.Env = Except.ok () ∧ rt.NewSessionOptions = Except.error what ∧
      CudaInference.setup rt =
        ⟨[Event.Env OrtLoggingLevel.VERBOSE "CUDA_Debug", Event.NewSessionOptions], Result.throw what⟩) ∨
    (∃ o st, rt.Env = Except.ok () ∧ rt.NewSessionOptions = Except.ok o ∧
      rt.AppendExecutionProvider_CUDA = some st ∧
      CudaInference.setup rt =
        ⟨[Event.Env OrtLoggingLevel.VERBOSE "CUDA_Debug", Event.NewSessionOptions,
          Event.AppendExecutionProvider_CUDA o 0 (some st), Event.GetErrorMessage (some st),
          Event.cerr ("Failed to append CUDA execution provider: " ++
            rt.GetErrorMessage (some st))], Result.ret (-1)⟩) ∨
    (∃ o what, rt.Env = Except.ok () ∧ rt.NewSessionOptions = Except.ok o ∧
      rt.AppendExecutionProvider_CUDA = none ∧ rt.Session = Except.error what ∧
      CudaInference.setup rt = ⟨cudaSetupEvents o, Result.throw what⟩) ∨
    (∃ o s, rt.Env = Except.ok () ∧ rt.NewSessionOptions = Except.ok o ∧
      rt.AppendExecutionProvider_CUDA = none ∧ rt.Session = Except.ok s ∧
      CudaInference.setup rt = ⟨cudaSetupEvents o, Result.ok s⟩) := by
  unfold CudaInference.setup cudaSetupEvents
  cases hE : rt.Env with
  | error what => exact Or.inl ⟨what, rfl, rfl⟩
  | ok u =>
    cases hO : rt.NewSessionOptions with
    | error what => exact Or.inr (Or.inl ⟨what, rfl, rfl, rfl⟩)
    | ok o =>
      cases hA : rt.AppendExecutionProvider_CUDA with
      | some st => exact Or.inr (Or.inr (Or.inl ⟨o, st, rfl, rfl, rfl, rfl⟩))
      | none =>
        cases hS : rt.Session with
        | error what => exact Or.inr (Or.inr (Or.inr (Or.inl ⟨o, what, rfl, rfl, rfl, rfl, rfl⟩)))
        | ok s => exact Or.inr (Or.inr (Or.inr (Or.inr ⟨o, s, rfl, rfl, rfl, rfl, rfl⟩)))

/-- The ways the DirectML setup can go, by the outcomes of its calls. An
exception can come from the environment, the options or either setting. -/
theorem dml_setup_cases (rt : Runtime) :
    ((rt.GetExecutionProviderApi.1 ≠ none ∨ rt.GetExecutionProviderApi.2 = false) ∧
      DirectMLInference.setup rt =
        ⟨[Event.GetExecutionProviderApi "DML" rt.ORT_API_VERSION rt.GetExecutionProviderApi.1
            rt.GetExecutionProviderApi.2,
          Event.GetErrorMessage rt.GetExecutionProviderApi.1,
          Event.cerr ("Error retrieving DML API pointer: " ++
            rt.GetErrorMessage rt.GetExecutionProviderApi.1)], Result.ret (-1)⟩) ∨
    (rt.GetExecutionProviderApi = (none, true) ∧
      ∃ what before, DirectMLInference.setup rt = ⟨before, Result.throw what⟩ ∧
        (∀ e ∈ before, e.isSessionConstruction = false ∧ e.usesSession = false ∧
          (∀ o d st, e ≠ Event.AppendExecutionProvider_DML o d st) ∧
          e ≠ Event.cout "No logits output tensor found.") ∧
        (rt.Env = Except.error what ∨ rt.NewSessionOptions = Except.error what ∨
          rt.SetExecutionMode = Except.error what ∨ rt.DisableMemPattern = Except.error what)) ∨
    (∃ o st, rt.GetExecutionProviderApi = (none, true) ∧ rt.Env = Except.ok () ∧
      rt.NewSessionOptions = Except.ok o ∧ rt.SetExecutionMode = Except.ok () ∧
      rt.DisableMemPattern = Except.ok () ∧ rt.AppendExecutionProvider_DML = some st ∧
      DirectMLInference.setup rt =
        ⟨[Event.GetExecutionProviderApi "DML" rt.ORT_API_VERSION none true,
          Event.cout "DML API pointer successfully retrieved.",
          Event.Env OrtLoggingLevel.VERBOSE "DML_Debug", Event.NewSessionOptions,
          Event.SetExecutionMode ExecutionMode.ORT_SEQUENTIAL, Event.DisableMemPattern,
          Event.AppendExecutionProvider_DML (dmlConfigured o) 0 (some st),
          Event.cerr "Failed to append DirectML execution provider."], Result.ret (-1)⟩) ∨
    (∃ o what, rt.GetExecutionProviderApi = (none, true) ∧ rt.Env = Except.ok () ∧
      rt.NewSessionOptions = Except.ok o ∧ rt.SetExecutionMode = Except.ok () ∧
      rt.DisableMemPattern = Except.ok () ∧ rt.AppendExecutionProvider_DML = none ∧
      rt.Session = Except.error what ∧
      DirectMLInference.setup rt = ⟨dmlSetupEvents rt.ORT_API_VERSION o, Result.throw what⟩) ∨
    (∃ o s, rt.GetExecutionProviderApi = (none, true) ∧ rt.Env = Except.ok () ∧
      rt.NewSessionOptions = Except.ok o ∧ rt.SetExecutionMode = Except.ok () ∧
      rt.DisableMemPattern = Except.ok () ∧ rt.AppendExecutionProvider_DML = none ∧
      rt.Session = Except.ok s ∧
      DirectMLInference.setup rt = ⟨dmlSetupEvents rt.ORT_API_VERSION o, Result.ok s⟩) := by
  unfold DirectMLInference.setup dmlSetupEvents dmlConfigured
  rcases hG : rt.GetExecutionProviderApi with ⟨status, api⟩
  cases status with
  | some st => exact Or.inl ⟨Or.inl (by simp), by cases api <;> rfl⟩
  | none =>
    cases api with
    | false => exact Or.inl ⟨Or.inr rfl, rfl⟩
    | true =>
      refine Or.inr ?_
      cases hE : rt.Env with
      | error what =>
        exact Or.inl ⟨rfl, what,
          [Event.GetExecutionProviderApi "DML" rt.ORT_API_VERSION none true,
            Event.cout "DML API pointer successfully retrieved.", Event.Env OrtLoggingLevel.VERBOSE "DML_Debug"], rfl, by simp [Event.isSessionConstruction, Event.usesSession],
          Or.inl rfl⟩
      | ok u =>
        cases hO : rt.NewSessionOptions with
        | error what =>
          exact Or.inl ⟨rfl, what,
          [Event.GetExecutionProviderApi "DML" rt.ORT_API_VERSION none true,
            Event.cout "DML API pointer successfully retrieved.", Event.Env OrtLoggingLevel.VERBOSE "DML_Debug", Event.NewSessionOptions], rfl,
            by simp [Event.isSessionConstruction, Event.usesSession], Or.inr (Or.inl rfl)⟩
        | ok o =>
          cases hM : rt.SetExecutionMode with
          | error what =>
            exact Or.inl ⟨rfl, what,
          [Event.GetExecutionProviderApi "DML" rt.ORT_API_VERSION none true,
            Event.cout "DML API pointer successfully retrieved.", Event.Env OrtLoggingLevel.VERBOSE "DML_Debug", Event.NewSessionOptions,
            Event.SetExecutionMode ExecutionMode.ORT_SEQUENTIAL], rfl,
              by simp [Event.isSessionConstruction, Event.usesSession],
              Or.inr (Or.inr (Or.inl rfl))⟩
          | ok u2 =>
            cases hD : rt.DisableMemPattern with
            | error what =>
              exact Or.inl ⟨rfl, what,
          [Event.GetExecutionProviderApi "DML" rt.ORT_API_VERSION none true,
            Event.cout "DML API pointer successfully retrieved.", Event.Env OrtLoggingLevel.VERBOSE "DML_Debug", Event.NewSessionOptions,
            Event.SetExecutionMode ExecutionMode.ORT_SEQUENTIAL, Event.DisableMemPattern], rfl,
                by simp [Event.isSessionConstruction, Event.usesSession],
                Or.inr (Or.inr (Or.inr rfl))⟩
            | ok u3 =>
              refine Or.inr ?_
              cases hA : rt.AppendExecutionProvider_DML with
              | some st => exact Or.inl ⟨o, st, rfl, rfl, rfl, rfl, rfl, rfl, rfl⟩
              | none =>
                cases hS : rt.Session with
                | error what =>
                  exact Or.inr (Or.inl ⟨o, what, rfl, rfl, rfl, rfl, rfl, rfl, rfl, rfl⟩)
                | ok s =>
                  exact Or.inr (Or.inr ⟨o, s, rfl, rfl, rfl, rfl, rfl, rfl, rfl, rfl⟩)

/-! ## The function `main` -/

/-- What `main` of the CUDA program yields once setup has run to its end with
session `s`. -/
theorem cuda_main_of_setup_ok (rt : Runtime) (events : List Event) (s : Session)
    (h : CudaInference.setup rt = ⟨events, Result.ok s⟩) :
    ((CudaInference.inference rt s).res = Result.ok () ∧
      CudaInference.tryBlock rt = ⟨events ++ (CudaInference.inference rt s).log, Result.ok ()⟩ ∧
      CudaInference.main rt = ⟨events ++ (CudaInference.inference rt s).log, 0⟩) ∨
    (∃ what, (CudaInference.inference rt s).res = Result.throw what ∧
      CudaInference.tryBlock rt =
        ⟨events ++ (CudaInference.inference rt s).log, Result.throw what⟩ ∧
      CudaInference.main rt = ⟨events ++ (CudaInference.inference rt s).log ++
        [Event.cerr ("ONNX Runtime Exception: " ++ what)], -1⟩) := by
  have ht : CudaInference.tryBlock rt =
      ⟨events ++ (CudaInference.inference rt s).log, (CudaInference.inference rt s).res⟩ := by
    unfold CudaInference.tryBlock
    rw [Exec.bind_of_ok (by rw [h]), h]
  cases hr : (CudaInference.inference rt s).res with
  | ok u =>
    refine Or.inl ⟨rfl, by rw [ht, hr], ?_⟩
    simp only [CudaInference.main, ht, hr]
  | ret code => exact absurd hr (inference_never_returns rt s code)
  | throw what =>
    refine Or.inr ⟨what, rfl, by rw [ht, hr], ?_⟩
    simp only [CudaInference.main, ht, hr]

/-- What `main` of the DirectML program yields once setup has run to its end
with session `s`. -/
theorem dml_main_of_setup_ok (rt : Runtime) (events : List Event) (s : Session)
    (h : DirectMLInference.setup rt = ⟨events, Result.ok s⟩) :
    ((CudaInference.inference rt s).res = Result.ok () ∧
      DirectMLInference.tryBlock rt =
        ⟨events ++ (CudaInference.inference rt s).log, Result.ok ()⟩ ∧
      DirectMLInference.main rt = ⟨events ++ (CudaInference.inference rt s).log, 0⟩) ∨
    (∃ what, (CudaInference.inference rt s).res = Result.throw what ∧
      DirectMLInference.tryBlock rt =
        ⟨events ++ (CudaInference.inference rt s).log, Result.throw what⟩ ∧
      DirectMLInference.main rt = ⟨events ++ (CudaInference.inference rt s).log ++
        [Event.cerr ("ONNX Runtime Exception: " ++ what)], -1⟩) := by
  have ht : DirectMLInference.tryBlock rt =
      ⟨events ++ (CudaInference.inference rt s).log, (CudaInference.inference rt s).res⟩ := by
    unfold DirectMLInference.tryBlock
    rw [Exec.bind_of_ok (by rw [h]), h, inference_eq]
  cases hr : (CudaInference.inference rt s).res with
  | ok u =>
    refine Or.inl ⟨rfl, by rw [ht, hr], ?_⟩
    simp only [DirectMLInference.main, ht, hr]
  | ret code => exact absurd hr (inference_never_returns rt s code)
  | throw what =>
    refine Or.inr ⟨what, rfl, by rw [ht, hr], ?_⟩
    simp only [DirectMLInference.main, ht, hr]

theorem cuda_main_of_setup_throw (rt : Runtime) (events : List Event) (what : String)
    (h : CudaInference.setup rt = ⟨events, Result.throw what⟩) :
    CudaInference.tryBlock rt = ⟨events, Result.throw what⟩ ∧
    CudaInference.main rt =
      ⟨events ++ [Event.cerr ("ONNX Runtime Exception: " ++ what)], -1⟩ := by
  have ht : CudaInference.tryBlock rt = ⟨events, Result.throw what⟩ := by
    unfold CudaInference.tryBlock
    rw [Exec.bind_of_throw (by rw [h]), h]
  exact ⟨ht, by simp only [CudaInference.main, ht]⟩

theorem cuda_main_of_setup_ret (rt : Runtime) (events : List Event) (code : Int)
    (h : CudaInference.setup rt = ⟨events, Result.ret code⟩) :
    CudaInference.tryBlock rt = ⟨events, Result.ret code⟩ ∧
    CudaInference.main rt = ⟨events, code⟩ := by
  have ht : CudaInference.tryBlock rt = ⟨events, Result.ret code⟩ := by
    unfold CudaInference.tryBlock
    rw [Exec.bind_of_ret (by rw [h]), h]
  exact ⟨ht, by simp only [CudaInference.main, ht]⟩

theorem dml_main_of_setup_throw (rt : Runtime) (events : List Event) (what : String)
    (h : DirectMLInference.setup rt = ⟨events, Result.throw what⟩) :
    DirectMLInference.tryBlock rt = ⟨events, Result.throw what⟩ ∧
    DirectMLInference.main rt =
      ⟨events ++ [Event.cerr ("ONNX Runtime Exception: " ++ what)], -1⟩ := by
  have ht : DirectMLInference.tryBlock rt = ⟨events, Result.throw what⟩ := by
    unfold DirectMLInference.tryBlock
    rw [Exec.bind_of_throw (by rw [h]), h]
  exact ⟨ht, by simp only [DirectMLInference.main, ht]⟩

theorem dml_main_of_setup_ret (rt : Runtime) (events : List Event) (code : Int)
    (h : DirectMLInference.setup rt = ⟨events, Result.ret code⟩) :
    DirectMLInference.tryBlock rt = ⟨events, Result.ret code⟩ ∧
    DirectMLInference.main rt = ⟨events, code⟩ := by
  have ht : DirectMLInference.tryBlock rt = ⟨events, Result.ret code⟩ := by
    unfold DirectMLInference.tryBlock
    rw [Exec.bind_of_ret (by rw [h]), h]
  exact ⟨ht, by simp only [DirectMLInference.main, ht]⟩

/-- Claim C2. In both programs, when a provider setup call reports failure
(CUDA: the append returns a non-null status; DirectML: the API lookup
returns a non-null status or a null API pointer, or the append returns a
non-null status), `main` returns -1 and its log holds no session
construction and no call that uses a session: no name enumeration, no
tensor creation, no run call. -/
theorem C2_provider_setup_failure (rt : Runtime) :
    (rt.AppendExecutionProvider_CUDA ≠ none →
      (CudaInference.main rt).exitCode = -1 ∧
      ∀ e ∈ (CudaInference.main rt).log,
        e.isSessionConstruction = false ∧ e.usesSession = false) ∧
    ((rt.GetExecutionProviderApi.1 ≠ none ∨ rt.GetExecutionProviderApi.2 = false ∨
        rt.AppendExecutionProvider_DML ≠ none) →
      (DirectMLInference.main rt).exitCode = -1 ∧
      ∀ e ∈ (DirectMLInference.main rt).log,
        e.isSessionConstruction = false ∧ e.usesSession = false) := by
  constructor
  · intro hfail
    rcases cuda_setup_cases rt with ⟨what, _, hs⟩ | ⟨what, _, _, hs⟩ | ⟨o, st, _, _, _, hs⟩ |
      ⟨o, what, _, _, hA, _, _⟩ | ⟨o, s, _, _, hA, _, _⟩
    · rw [(cuda_main_of_setup_throw rt _ _ hs).2]
      simp [Event.isSessionConstruction, Event.usesSession]
    · rw [(cuda_main_of_setup_throw rt _ _ hs).2]
      simp [Event.isSessionConstruction, Event.usesSession]
    · rw [(cuda_main_of_setup_ret rt _ _ hs).2]
      simp [Event.isSessionConstruction, Event.usesSession]
    · exact absurd hA hfail
    · exact absurd hA hfail
  · intro hfail
    rcases dml_setup_cases rt with ⟨_, hs⟩ | ⟨_, what, before, hs, hb, _⟩ |
      ⟨o, st, _, _, _, _, _, _, hs⟩ | ⟨o, what, hG, _, _, _, _, hA, _, _⟩ |
      ⟨o, s, hG, _, _, _, _, hA, _, _⟩
    · rw [(dml_main_of_setup_ret rt _ _ hs).2]
      simp [Event.isSessionConstruction, Event.usesSession]
    · rw [(dml_main_of_setup_throw rt _ _ hs).2]
      refine ⟨rfl, ?_⟩
      intro e he
      simp only [List.mem_append, List.mem_singleton] at he
      rcases he with he | he
      · exact ⟨(hb e he).1, (hb e he).2.1⟩
      · rw [he]
        exact ⟨rfl, rfl⟩
    · rw [(dml_main_of_setup_ret rt _ _ hs).2]
      simp [Event.isSessionConstruction, Event.usesSession]
    · rw [hG, hA] at hfail
      simp at hfail
    · rw [hG, hA] at hfail
      simp at hfail

/-- Claim C2 at a failing CUDA append and at a failing DirectML append. -/
theorem C2_provider_setup_failure_witness :
    ((CudaInference.main cudaAppendFails).exitCode = -1 ∧
      ∀ e ∈ (CudaInference.main cudaAppendFails).log,
        e.isSessionConstruction = false ∧ e.usesSession = false) ∧
    ((DirectMLInference.main dmlAppendFails).exitCode = -1 ∧
      ∀ e ∈ (DirectMLInference.main dmlAppendFails).log,
        e.isSessionConstruction = false ∧ e.usesSession = false) :=
  ⟨(C2_provider_setup_failure cudaAppendFails).1 (by simp [cudaAppendFails]),
   (C2_provider_setup_failure dmlAppendFails).2 (Or.inr (Or.inr (by simp [dmlAppendFails])))⟩

/-- Claim C3. In both programs, when session construction throws an
`Ort::Exception` with message `what`, `main` returns -1, its log holds no
call that uses a session (no name fetched, no tensor created, no run call),
and where the session construction is in the log it is followed by exactly
one event, the line "ONNX Runtime Exception: " and `what` on standard
error. -/
theorem C3_model_load_failure (rt : Runtime) (what : String)
    (h : rt.Session = Except.error what) :
    ((CudaInference.main rt).exitCode = -1 ∧
      (∀ e ∈ (CudaInference.main rt).log, e.usesSession = false) ∧
      ∀ p o, Event.Session p o ∈ (CudaInference.main rt).log →
        ∃ before, (CudaInference.main rt).log = before ++
          [Event.Session p o, Event.cerr ("ONNX Runtime Exception: " ++ what)] ∧
          ∀ e ∈ before, e.isSessionConstruction = false) ∧
    ((DirectMLInference.main rt).exitCode = -1 ∧
      (∀ e ∈ (DirectMLInference.main rt).log, e.usesSession = false) ∧
      ∀ p o, Event.Session p o ∈ (DirectMLInference.main rt).log →
        ∃ before, (DirectMLInference.main rt).log = before ++
          [Event.Session p o, Event.cerr ("ONNX Runtime Exception: " ++ what)] ∧
          ∀ e ∈ before, e.isSessionConstruction = false) := by
  constructor
  · rcases cuda_setup_cases rt with ⟨w, _, hs⟩ | ⟨w, _, _, hs⟩ | ⟨o, st, _, _, _, hs⟩ |
      ⟨o, w, _, _, _, hS, hs⟩ | ⟨o, s, _, _, _, hS, _⟩
    · rw [(cuda_main_of_setup_throw rt _ _ hs).2]
      simp [Event.usesSession]
    · rw [(cuda_main_of_setup_throw rt _ _ hs).2]
      simp [Event.usesSession]
    · rw [(cuda_main_of_setup_ret rt _ _ hs).2]
      simp [Event.usesSession]
    · rw [(cuda_main_of_setup_throw rt _ _ hs).2]
      rw [h] at hS
      cases hS
      refine ⟨rfl, by simp [cudaSetupEvents, Event.usesSession], ?_⟩
      intro p o' hmem
      simp only [cudaSetupEvents, List.cons_append, List.nil_append, List.mem_cons,
        List.mem_singleton, List.not_mem_nil, or_false, reduceCtorEq, false_or] at hmem
      rw [hmem]
      exact ⟨[Event.Env OrtLoggingLevel.VERBOSE "CUDA_Debug", Event.NewSessionOptions,
        Event.AppendExecutionProvider_CUDA o 0 none,
        Event.cout "CUDA execution provider appended successfully."], rfl,
        by simp [Event.isSessionConstruction]⟩
    · rw [h] at hS
      cases hS
  · rcases dml_setup_cases rt with ⟨_, hs⟩ | ⟨_, w, before, hs, hb, _⟩ |
      ⟨o, st, _, _, _, _, _, _, hs⟩ | ⟨o, w, _, _, _, _, _, _, hS, hs⟩ |
      ⟨o, s, _, _, _, _, _, _, hS, _⟩
    · rw [(dml_main_of_setup_ret rt _ _ hs).2]
      simp [Event.usesSession]
    · rw [(dml_main_of_setup_throw rt _ _ hs).2]
      refine ⟨rfl, ?_, ?_⟩
      · intro e he
        simp only [List.mem_append, List.mem_singleton] at he
        rcases he with he | he
        · exact (hb e he).2.1
        · rw [he]
          rfl
      · intro p o hmem
        simp only [List.mem_append, List.mem_singleton, reduceCtorEq, or_false] at hmem
        have := (hb _ hmem).1
        simp [Event.isSessionConstruction] at this
    · rw [(dml_main_of_setup_ret rt _ _ hs).2]
      simp [Event.usesSession]
    · rw [(dml_main_of_setup_throw rt _ _ hs).2]
      rw [h] at hS
      cases hS
      refine ⟨rfl, by simp [dmlSetupEvents, Event.usesSession], ?_⟩
      intro p o' hmem
      simp only [dmlSetupEvents, List.cons_append, List.nil_append, List.mem_cons,
        List.mem_singleton, List.not_mem_nil, or_false, reduceCtorEq, false_or] at hmem
      rw [hmem]
      exact ⟨[Event.GetExecutionProviderApi "DML" rt.ORT_API_VERSION none true,
        Event.cout "DML API pointer successfully retrieved.",
        Event.Env OrtLoggingLevel.VERBOSE "DML_Debug", Event.NewSessionOptions,
        Event.SetExecutionMode ExecutionMode.ORT_SEQUENTIAL, Event.DisableMemPattern,
        Event.AppendExecutionProvider_DML (dmlConfigured o) 0 none], rfl,
        by simp [Event.isSessionConstruction]⟩
    · rw [h] at hS
      cases hS

/-- Claim C3 at a runtime whose model load throws "Load model failed": both
programs reach session construction and stop right after it. -/
theorem C3_model_load_failure_witness :
    ((CudaInference.main modelLoadThrows).exitCode = -1 ∧
      ∃ before, (CudaInference.main modelLoadThrows).log = before ++
        [Event.Session "<YOUR MODEL>"
          ⟨ExecutionMode.ORT_PARALLEL, true, [Provider.CUDA 0]⟩,
         Event.cerr ("ONNX Runtime Exception: " ++ "Load model failed")] ∧
        ∀ e ∈ before, e.isSessionConstruction = false) ∧
    ((DirectMLInference.main modelLoadThrows).exitCode = -1 ∧
      ∃ before, (DirectMLInference.main modelLoadThrows).log = before ++
        [Event.Session "<YOUR_ONNX_MODEL>"
          ⟨ExecutionMode.ORT_SEQUENTIAL, false, [Provider.DML 0]⟩,
         Event.cerr ("ONNX Runtime Exception: " ++ "Load model failed")] ∧
        ∀ e ∈ before, e.isSessionConstruction = false) :=
  ⟨⟨(C3_model_load_failure modelLoadThrows "Load model failed" rfl).1.1,
    (C3_model_load_failure modelLoadThrows "Load model failed" rfl).1.2.2 _ _
      (by simp [CudaInference.main, CudaInference.tryBlock, CudaInference.setup,
        CudaInference.modelFilePath, modelLoadThrows, sampleRuntime, Exec.bind, Exec.call,
        Exec.emit, SessionOptions.append])⟩,
   ⟨(C3_model_load_failure modelLoadThrows "Load model failed" rfl).2.1,
    (C3_model_load_failure modelLoadThrows "Load model failed" rfl).2.2.2 _ _
      (by simp [DirectMLInference.main, DirectMLInference.tryBlock, DirectMLInference.setup,
        DirectMLInference.modelFilePath, modelLoadThrows, sampleRuntime, Exec.bind, Exec.call,
        Exec.emit, SessionOptions.append, SessionOptions.SetExecutionMode,
        SessionOptions.DisableMemPattern])⟩⟩

/-- The names a name-enumeration loop collects are the declared names, in
index order. -/
theorem names_of_loop (event : Nat → Event) (name : Nat → Except String String) (N : Nat)
    (names : List String)
    (h : (Exec.forCount (fun i => Exec.call (event i) (name i)) 0 N).res = Result.ok names) :
    names.length = N ∧ ∀ i (hi : i < names.length), name i = Except.ok (names.get ⟨i, hi⟩) := by
  obtain ⟨hlen, hget⟩ := Exec.res_forCount_ok _ _ _ _ h
  refine ⟨hlen, ?_⟩
  intro i hi
  have := hget i hi
  rw [Nat.zero_add] at this
  exact (Exec.res_call_ok _ _ _).mp this

/-- The arguments of a run call in the log of the part after session
construction. -/
theorem run_call_shape (rt : Runtime) (s : Session) (names : List String)
    (tensors : List Tensor) (count : Nat) (outs : List String) (outCount : Nat)
    (h : Event.Run names tensors count outs outCount ∈ (CudaInference.inference rt s).log) :
    ∃ N, s.GetInputCount = Except.ok N ∧ names.length = N ∧
      (∀ i (hi : i < names.length),
        s.GetInputNameAllocated i = Except.ok (names.get ⟨i, hi⟩)) ∧
      count = tensors.length ∧ count = max N 3 ∧ (count = names.length ↔ 3 ≤ N) := by
  obtain ⟨N, hN, hnames, htensors, hcount, _, _⟩ := run_in_inference rt s _ _ _ _ _ h
  obtain ⟨hlen, hget⟩ := names_of_loop _ _ _ _ hnames
  have hts := assembleInputs_ok rt N tensors htensors
  have hc : count = max N 3 := by
    rw [hcount, hts]
    simp
    omega
  refine ⟨N, hN, hlen, hget, hcount, hc, ?_⟩
  rw [hc, hlen]
  omega

/-- Claim C6, as amended. In both programs, whenever the run call is made,
the session reported an input count `N`, the input-name array passed is the
session's `N` declared input names in index order, and the input count
passed is the number of tensors supplied, which is `max N 3`: it equals `N`,
the length of the name array, exactly when `N >= 3`. -/
theorem C6_run_arguments (rt : Runtime) (names : List String) (tensors : List Tensor)
    (count : Nat) (outs : List String) (outCount : Nat)
    (h : Event.Run names tensors count outs outCount ∈ (CudaInference.main rt).log ∨
      Event.Run names tensors count outs outCount ∈ (DirectMLInference.main rt).log) :
    ∃ s N, rt.Session = Except.ok s ∧ s.GetInputCount = Except.ok N ∧ names.length = N ∧
      (∀ i (hi : i < names.length),
        s.GetInputNameAllocated i = Except.ok (names.get ⟨i, hi⟩)) ∧
      count = tensors.length ∧ count = max N 3 ∧ (count = names.length ↔ 3 ≤ N) := by
  rcases h with h | h
  · rcases cuda_setup_cases rt with ⟨w, _, hs⟩ | ⟨w, _, _, hs⟩ | ⟨o, st, _, _, _, hs⟩ |
      ⟨o, w, _, _, _, _, hs⟩ | ⟨o, s, _, _, _, hS, hs⟩
    · rw [(cuda_main_of_setup_throw rt _ _ hs).2] at h
      simp at h
    · rw [(cuda_main_of_setup_throw rt _ _ hs).2] at h
      simp at h
    · rw [(cuda_main_of_setup_ret rt _ _ hs).2] at h
      simp at h
    · rw [(cuda_main_of_setup_throw rt _ _ hs).2] at h
      simp [cudaSetupEvents] at h
    · have hmem : Event.Run names tensors count outs outCount ∈
          (CudaInference.inference rt s).log := by
        rcases cuda_main_of_setup_ok rt _ _ hs with ⟨_, _, hm⟩ | ⟨w, _, _, hm⟩ <;>
          rw [hm] at h <;> simpa [cudaSetupEvents] using h
      obtain ⟨N, hrest⟩  := run_call_shape rt s _ _ _ _ _ hmem
      exact ⟨s, N, hS, hrest⟩
  · rcases dml_setup_cases rt with ⟨_, hs⟩ | ⟨_, w, before, hs, hb, _⟩ |
      ⟨o, st, _, _, _, _, _, _, hs⟩ | ⟨o, w, _, _, _, _, _, _, _, hs⟩ |
      ⟨o, s, _, _, _, _, _, _, hS, hs⟩
    · rw [(dml_main_of_setup_ret rt _ _ hs).2] at h
      simp at h
    · rw [(dml_main_of_setup_throw rt _ _ hs).2] at h
      simp only [List.mem_append, List.mem_singleton, reduceCtorEq, or_false] at h
      have := (hb _ h).2.1
      simp [Event.usesSession] at this
    · rw [(dml_main_of_setup_ret rt _ _ hs).2] at h
      simp at h
    · rw [(dml_main_of_setup_throw rt _ _ hs).2] at h
      simp [dmlSetupEvents] at h
    · have hmem : Event.Run names tensors count outs outCount ∈
          (CudaInference.inference rt s).log := by
        rcases dml_main_of_setup_ok rt _ _ hs with ⟨_, _, hm⟩ | ⟨w, _, _, hm⟩ <;>
          rw [hm] at h <;> simpa [dmlSetupEvents] using h
      obtain ⟨N, hrest⟩  := run_call_shape rt s _ _ _ _ _ hmem
      exact ⟨s, N, hS, hrest⟩

/-- Claim C6, as amended, at a session with five declared inputs: five names
and five tensors. -/
theorem C6_run_arguments_witness :
    ∃ s N, (sampleRuntime (sampleSession 5 [])).Session = Except.ok s ∧
      s.GetInputCount = Except.ok N ∧ ["in0", "in1", "in2", "in3", "in4"].length = N ∧
      (∀ i (hi : i < ["in0", "in1", "in2", "in3", "in4"].length),
        s.GetInputNameAllocated i =
          Except.ok (["in0", "in1", "in2", "in3", "in4"].get ⟨i, hi⟩)) ∧
      5 = ([⟨ElemType.int64, [1, 3], [1, 2, 3], 24⟩, ⟨ElemType.int64, [1, 3], [0, 1, 2], 24⟩,
        ⟨ElemType.int64, [1, 3], [1, 1, 1], 24⟩, ⟨ElemType.float16, [1, 32, 0, 96], [], 0⟩,
        ⟨ElemType.float16, [1, 32, 0, 96], [], 0⟩] : List Tensor).length ∧
      5 = max N 3 ∧ (5 = ["in0", "in1", "in2", "in3", "in4"].length ↔ 3 ≤ N) :=
  C6_run_arguments (sampleRuntime (sampleSession 5 [])) ["in0", "in1", "in2", "in3", "in4"]
    [⟨ElemType.int64, [1, 3], [1, 2, 3], 24⟩, ⟨ElemType.int64, [1, 3], [0, 1, 2], 24⟩,
      ⟨ElemType.int64, [1, 3], [1, 1, 1], 24⟩, ⟨ElemType.float16, [1, 32, 0, 96], [], 0⟩,
      ⟨ElemType.float16, [1, 32, 0, 96], [], 0⟩] 5 ["logits"] 1 (Or.inl (by decide))

/-- Claim C6 as stated fails at a session that declares two inputs: the run
call is made with two names and an input count of three. -/
theorem C6_counterexample :
    ¬ ∀ names tensors count outs outCount,
      Event.Run names tensors count outs outCount ∈
        (CudaInference.main (sampleRuntime (sampleSession 2 []))).log →
      names.length = 2 ∧ count = 2 ∧ count = names.length := by
  intro h
  have := h ["in0", "in1"]
    [⟨ElemType.int64, [1, 3], [1, 2, 3], 24⟩, ⟨ElemType.int64, [1, 3], [0, 1, 2], 24⟩,
      ⟨ElemType.int64, [1, 3], [1, 1, 1], 24⟩] 3 ["logits"] 1 (by decide)
  simp at this

/-! ## DirectML session options -/

theorem optionsInUse_of_afterSetup (e : Event) (h : e.afterSetup = true) :
    e.optionsInUse = none := by
  cases e <;> simp [Event.afterSetup, Event.usesSession] at h <;> rfl

theorem dmlConfigured_flags (o : SessionOptions) :
    (dmlConfigured o).executionMode = ExecutionMode.ORT_SEQUENTIAL ∧
    (dmlConfigured o).memPattern = false ∧
    ((dmlConfigured o).append (Provider.DML 0)).executionMode = ExecutionMode.ORT_SEQUENTIAL ∧
    ((dmlConfigured o).append (Provider.DML 0)).memPattern = false :=
  ⟨rfl, rfl, rfl, rfl⟩

/-- Claim C7. In the DirectML program, the session options handed to the
provider append call and to session construction always have execution mode
sequential and memory-pattern optimization disabled, whatever options the
runtime constructs by default. -/
theorem C7_dml_options (rt : Runtime) (e : Event) (options : SessionOptions)
    (he : e ∈ (DirectMLInference.main rt).log) (ho : e.optionsInUse = some options) :
    options.executionMode = ExecutionMode.ORT_SEQUENTIAL ∧ options.memPattern = false := by
  have hsetup : ∀ o, e ∈ dmlSetupEvents rt.ORT_API_VERSION o →
      options.executionMode = ExecutionMode.ORT_SEQUENTIAL ∧ options.memPattern = false := by
    intro o hmem
    simp only [dmlSetupEvents, List.mem_cons, List.mem_singleton, List.not_mem_nil,
      or_false] at hmem
    rcases hmem with h | h | h | h | h | h | h | h <;> rw [h] at ho <;>
      simp only [Event.optionsInUse, Option.some.injEq, reduceCtorEq] at ho
    · rw [← ho]
      exact ⟨(dmlConfigured_flags o).1, (dmlConfigured_flags o).2.1⟩
    · rw [← ho]
      exact ⟨(dmlConfigured_flags o).2.2.1, (dmlConfigured_flags o).2.2.2⟩
  have hinf : ∀ s, e ∈ (CudaInference.inference rt s).log → False := by
    intro s hmem
    have := optionsInUse_of_afterSetup e (inference_afterSetup rt s e hmem)
    rw [this] at ho
    cases ho
  rcases dml_setup_cases rt with ⟨_, hs⟩ | ⟨_, w, before, hs, hb, _⟩ |
    ⟨o, st, _, _, _, _, _, _, hs⟩ | ⟨o, w, _, _, _, _, _, _, _, hs⟩ |
    ⟨o, s, _, _, _, _, _, _, _, hs⟩
  · rw [(dml_main_of_setup_ret rt _ _ hs).2] at he
    simp only [List.mem_cons, List.mem_singleton, List.not_mem_nil, or_false] at he
    rcases he with h | h | h <;> rw [h] at ho <;> simp [Event.optionsInUse] at ho
  · rw [(dml_main_of_setup_throw rt _ _ hs).2] at he
    simp only [List.mem_append, List.mem_singleton] at he
    rcases he with h | h
    · obtain ⟨h1, _, h3, _⟩ := hb e h
      cases e <;> simp [Event.optionsInUse] at ho
      · exact absurd rfl (h3 _ _ _)
      · simp [Event.isSessionConstruction] at h1
    · rw [h] at ho
      simp [Event.optionsInUse] at ho
  · rw [(dml_main_of_setup_ret rt _ _ hs).2] at he
    simp only [List.mem_cons, List.mem_singleton, List.not_mem_nil, or_false] at he
    rcases he with h | h | h | h | h | h | h | h <;> rw [h] at ho <;>
      simp only [Event.optionsInUse, Option.some.injEq, reduceCtorEq] at ho
    rw [← ho]
    exact ⟨(dmlConfigured_flags o).1, (dmlConfigured_flags o).2.1⟩
  · rw [(dml_main_of_setup_throw rt _ _ hs).2] at he
    simp only [List.mem_append, List.mem_singleton] at he
    rcases he with h | h
    · exact hsetup o h
    · rw [h] at ho
      simp [Event.optionsInUse] at ho
  · rcases dml_main_of_setup_ok rt _ _ hs with ⟨_, _, hm⟩ | ⟨w, _, _, hm⟩
    · rw [hm] at he
      simp only [List.mem_append] at he
      rcases he with h | h
      · exact hsetup o h
      · exact absurd (hinf s h) id
    · rw [hm] at he
      simp only [List.mem_append, List.mem_singleton] at he
      rcases he with (h | h) | h
      · exact hsetup o h
      · exact absurd (hinf s h) id
      · rw [h] at ho
        simp [Event.optionsInUse] at ho

/-- Claim C7 at a runtime whose default options are parallel with memory
patterns enabled: both calls still receive sequential mode without memory
patterns. -/
theorem C7_dml_options_witness :
    ((⟨ExecutionMode.ORT_SEQUENTIAL, false, []⟩ : SessionOptions).executionMode =
        ExecutionMode.ORT_SEQUENTIAL ∧
      (⟨ExecutionMode.ORT_SEQUENTIAL, false, []⟩ : SessionOptions).memPattern = false) ∧
    ((⟨ExecutionMode.ORT_SEQUENTIAL, false, [Provider.DML 0]⟩ : SessionOptions).executionMode =
        ExecutionMode.ORT_SEQUENTIAL ∧
      (⟨ExecutionMode.ORT_SEQUENTIAL, false, [Provider.DML 0]⟩ : SessionOptions).memPattern =
        false) :=
  ⟨C7_dml_options (sampleRuntime (sampleSession 3 []))
      (Event.AppendExecutionProvider_DML ⟨ExecutionMode.ORT_SEQUENTIAL, false, []⟩ 0 none)
      ⟨ExecutionMode.ORT_SEQUENTIAL, false, []⟩ (by decide) rfl,
   C7_dml_options (sampleRuntime (sampleSession 3 []))
      (Event.Session "<YOUR_ONNX_MODEL>" ⟨ExecutionMode.ORT_SEQUENTIAL, false, [Provider.DML 0]⟩)
      ⟨ExecutionMode.ORT_SEQUENTIAL, false, [Provider.DML 0]⟩ (by decide) rfl⟩

/-! ## The two programs after setup -/

/-- Claim C9. When provider setup and session construction succeed in both
programs with the same session behaviour, then from the allocator and
input-name enumeration onward the two programs produce the same events (the
same runtime calls with the same arguments, the same lines on standard
output and standard error) and `main` returns the same value: the two logs
are the two setup logs followed by one common tail. -/
theorem C9_same_after_setup (rt : Runtime) (session : Session)
    (hc : (CudaInference.setup rt).res = Result.ok session)
    (hd : (DirectMLInference.setup rt).res = Result.ok session) :
    CudaInference.inference rt session = DirectMLInference.inference rt session ∧
    ∃ tail code,
      CudaInference.main rt = ⟨(CudaInference.setup rt).log ++ tail, code⟩ ∧
      DirectMLInference.main rt = ⟨(DirectMLInference.setup rt).log ++ tail, code⟩ ∧
      (∀ e ∈ tail, e.afterSetup = true ∨ ∃ line, e = Event.cerr line) := by
  refine ⟨(inference_eq rt session).symm, ?_⟩
  have hc' : CudaInference.setup rt = ⟨(CudaInference.setup rt).log, Result.ok session⟩ := by
    rw [← hc]
  have hd' : DirectMLInference.setup rt =
      ⟨(DirectMLInference.setup rt).log, Result.ok session⟩ := by
    rw [← hd]
  rcases cuda_main_of_setup_ok rt _ _ hc' with ⟨hr, _, hm⟩ | ⟨w, hr, _, hm⟩
  · rcases dml_main_of_setup_ok rt _ _ hd' with ⟨_, _, hm2⟩ | ⟨w2, hr2, _, _⟩
    · exact ⟨_, _, hm, hm2, fun e he => Or.inl (inference_afterSetup rt session e he)⟩
    · rw [hr] at hr2
      cases hr2
  · rcases dml_main_of_setup_ok rt _ _ hd' with ⟨hr2, _, _⟩ | ⟨w2, hr2, _, hm2⟩
    · rw [hr] at hr2
      cases hr2
    · rw [hr] at hr2
      cases hr2
      refine ⟨(CudaInference.inference rt session).log ++
        [Event.cerr ("ONNX Runtime Exception: " ++ w)], -1, ?_, ?_, ?_⟩
      · rw [hm, List.append_assoc]
      · rw [hm2, List.append_assoc]
      · intro e he
        simp only [List.mem_append, List.mem_singleton] at he
        rcases he with h | h
        · exact Or.inl (inference_afterSetup rt session e h)
        · exact Or.inr ⟨_, h⟩

/-- Claim C9 at a runtime in which both setups succeed, with a session of
four declared inputs whose run call returns a two-element tensor. -/
theorem C9_same_after_setup_witness :
    CudaInference.inference (sampleRuntime (sampleSession 4 [OrtValue.tensor [1, 2]]))
        (sampleSession 4 [OrtValue.tensor [1, 2]]) =
      DirectMLInference.inference (sampleRuntime (sampleSession 4 [OrtValue.tensor [1, 2]]))
        (sampleSession 4 [OrtValue.tensor [1, 2]]) ∧
    ∃ tail code,
      CudaInference.main (sampleRuntime (sampleSession 4 [OrtValue.tensor [1, 2]])) =
        ⟨(CudaInference.setup (sampleRuntime (sampleSession 4 [OrtValue.tensor [1, 2]]))).log ++
          tail, code⟩ ∧
      DirectMLInference.main (sampleRuntime (sampleSession 4 [OrtValue.tensor [1, 2]])) =
        ⟨(DirectMLInference.setup
          (sampleRuntime (sampleSession 4 [OrtValue.tensor [1, 2]]))).log ++ tail, code⟩ ∧
      (∀ e ∈ tail, e.afterSetup = true ∨ ∃ line, e = Event.cerr line) :=
  C9_same_after_setup (sampleRuntime (sampleSession 4 [OrtValue.tensor [1, 2]]))
    (sampleSession 4 [OrtValue.tensor [1, 2]]) rfl rfl

/-! ## The message of the API lookup status -/

/-- Claim C10 fails on the code. When the DirectML API lookup returns a null
status and a null API pointer, the failure branch is taken and
`GetErrorMessage` is called on the null status. -/
theorem C10_null_status_message_read :
    (DirectMLInference.main nullApiPointer).log =
      [Event.GetExecutionProviderApi "DML" 17 none false, Event.GetErrorMessage none,
        Event.cerr "Error retrieving DML API pointer: "] ∧
    (DirectMLInference.main nullApiPointer).exitCode = -1 ∧
    Event.GetErrorMessage none ∈ (DirectMLInference.main nullApiPointer).log := by
  decide

end OrtExamples
